import Mathlib

/-!
Verification development for the `ar-remake` repository (a first-person
tile-grid exploration demo: raycast renderer, stepped movement, establishment
interiors, persistent player stats).

The relevant parts of the two Python modules `main_pygame.py`,
`interior_mode.py` and `player_data.py` are shallowly embedded below.
Python floats are modelled as exact rationals (`ℚ`); where the accumulated
rounding error is behaviorally relevant — the ray march's `depth += 0.05`
loop, whose guard fails only after an 801st increment — the IEEE-754
binary64 rounding of each operation is applied explicitly (`roundDouble`).
Python's `int(...)` truncation toward zero is modelled by `pytrunc`.  The
player's heading
`p_angle` is always an integer multiple of `π/2` in the stepped variant
(it starts at `-π/2` and every turn adds `±π/2`), so it is embedded as the
integer quarter-turn count `k` with `p_angle = k·π/2`; `qcos`/`qsin` are the
exact values of `cos (k·π/2)` and `sin (k·π/2)` (the `1e-9` epsilon bias in
the source absorbs the sub-`1e-16` floating-point dust of `cos(k·π/2)`, so
the truncated cell indices of the model and of the program agree).
Transcendental per-ray quantities (`cos ray_ang`, `sin ray_ang`,
`cos (pa - ray_ang)`) enter the per-ray computations only as real-valued
inputs, so they are taken as rational parameters of the embedded functions.
-/

namespace ARRemake

/-- Configuration constant `RES_X = 1280` from `main_pygame.py`. -/
def RES_X : ℕ := 1280

/-- Configuration constant `RES_Y = 720` from `main_pygame.py`. -/
def RES_Y : ℕ := 720

/-- Configuration constant `NUM_RAYS = 160` from `main_pygame.py`. -/
def NUM_RAYS : ℕ := 160

/-- Configuration constant `MAX_DEPTH = 40.0` from `main_pygame.py`. -/
def MAX_DEPTH : ℚ := 40

/-- Configuration constant `TILE = 64` from `main_pygame.py`. -/
def TILE : ℕ := 64

/-- Configuration constant `SCALE = RES_X // NUM_RAYS = 8` from `main_pygame.py`. -/
def SCALE : ℕ := RES_X / NUM_RAYS

/-- The epsilon bias `1e-9` used in `step_forward` / `step_backward`. -/
def eps : ℚ := 1 / 1000000000

/-- Python's `int(q)` on a float: truncation toward zero
(`Int.tdiv` is the truncating division of the numerator by the denominator). -/
def pytrunc (q : ℚ) : ℤ := q.num.tdiv q.den

/-- Exact value of `cos (k·π/2)` for an integer quarter-turn count `k`. -/
def qcos (k : ℤ) : ℤ := if k % 4 = 0 then 1 else if k % 4 = 2 then -1 else 0

/-- Exact value of `sin (k·π/2)` for an integer quarter-turn count `k`. -/
def qsin (k : ℤ) : ℤ := if k % 4 = 1 then 1 else if k % 4 = 3 then -1 else 0

/-- The grid map `world_map`: a list of rows of tile characters, as parsed
from `data/map.txt` in `main_pygame.py`. -/
structure GameMap where
  grid : List (List Char)

/-- `MAP_H = len(world_map)`. -/
def MAP_H (m : GameMap) : ℕ := m.grid.length

/-- `MAP_W = len(world_map[0])` (0 when the map is empty). -/
def MAP_W (m : GameMap) : ℕ := (m.grid.getD 0 []).length

/-- `world_map[y][x]`.  Python raises on a ragged row; the theorems assume
`Rectangular`, under which the `'?'` default below is never reached for
in-bounds indices. -/
def mapAt (m : GameMap) (x y : ℤ) : Char := (m.grid.getD y.toNat []).getD x.toNat '?'

/-- The spec's Grid Map invariant: all rows have length `MAP_W`. -/
def Rectangular (m : GameMap) : Prop := ∀ row ∈ m.grid, row.length = MAP_W m

instance (m : GameMap) : Decidable (Rectangular m) := by
  unfold Rectangular; infer_instance

/-- One record of `est_defs` (`data/establishments.json`): a JSON object with
optional `type` and `name` fields and a `menu` list (`.get` returns `None`
when a field is absent, `menu` defaults to the empty list). -/
structure Est where
  type : Option String
  name : Option String
  menu : List String

/-- `est_defs` as an insertion-ordered association list from lowercase tile
letter to record (Python dicts preserve insertion order). -/
def EstDefs := List (Char × Est)

/-- `key in est_defs` / `est_defs[key]` on the dict. -/
def estLookup (ests : List (Char × Est)) (c : Char) : Option Est :=
  match ests.find? (fun p => p.1 = c) with
  | some p => some p.2
  | none => none

/-- `enter_est_from_char` from `main_pygame.py`: look the map character up
(lowercased) in `est_defs` and return the record's `type` field. -/
def enter_est_from_char (ests : List (Char × Est)) (ch : Char) : Option String :=
  match estLookup ests ch.toLower with
  | some e => e.type
  | none => none

/-- `nx = int(px + math.cos(p_angle) * STEP_SIZE + 1e-9)` from `step_forward`
(`STEP_SIZE = 1`). -/
def fwdCandX (px : ℚ) (k : ℤ) : ℤ := pytrunc (px + (qcos k : ℚ) + eps)

/-- `ny = int(py + math.sin(p_angle) * STEP_SIZE + 1e-9)` from `step_forward`. -/
def fwdCandY (py : ℚ) (k : ℤ) : ℤ := pytrunc (py + (qsin k : ℚ) + eps)

/-- `nx = int(px - math.cos(p_angle) * STEP_SIZE + 1e-9)` from `step_backward`. -/
def bwdCandX (px : ℚ) (k : ℤ) : ℤ := pytrunc (px - (qcos k : ℚ) + eps)

/-- `ny = int(py - math.sin(p_angle) * STEP_SIZE + 1e-9)` from `step_backward`. -/
def bwdCandY (py : ℚ) (k : ℤ) : ℤ := pytrunc (py - (qsin k : ℚ) + eps)

/-- `step_forward` from `main_pygame.py` (lines 465-478), as a function of the
current position, quarter-turn heading count and map/registry: returns the new
position together with the establishment type signalled for a mode transition
(the function's return value).  The signal is guarded by Python's truthiness
check `if et: return et`, so a registered type that is `None` or the empty
string falls through to `return None`. -/
def step_forward (m : GameMap) (ests : List (Char × Est)) (px py : ℚ) (k : ℤ) :
    ℚ × ℚ × Option String :=
  if 0 ≤ fwdCandX px k ∧ fwdCandX px k < (MAP_W m : ℤ) ∧
     0 ≤ fwdCandY py k ∧ fwdCandY py k < (MAP_H m : ℤ) then
    if mapAt m (fwdCandX px k) (fwdCandY py k) = '.' then
      ((fwdCandX px k : ℚ) + 1/2, (fwdCandY py k : ℚ) + 1/2, none)
    else if (estLookup ests (mapAt m (fwdCandX px k) (fwdCandY py k)).toLower).isSome then
      match enter_est_from_char ests (mapAt m (fwdCandX px k) (fwdCandY py k)) with
      | some et => if et.isEmpty then (px, py, none) else (px, py, some et)
      | none => (px, py, none)
    else (px, py, none)
  else (px, py, none)

/-- `step_backward` from `main_pygame.py` (lines 480-487): like
`step_forward` with the direction negated, but with no establishment branch
and no return value. -/
def step_backward (m : GameMap) (px py : ℚ) (k : ℤ) : ℚ × ℚ :=
  if 0 ≤ bwdCandX px k ∧ bwdCandX px k < (MAP_W m : ℤ) ∧
     0 ≤ bwdCandY py k ∧ bwdCandY py k < (MAP_H m : ℤ) then
    if mapAt m (bwdCandX px k) (bwdCandY py k) = '.' then
      ((bwdCandX px k : ℚ) + 1/2, (bwdCandY py k : ℚ) + 1/2)
    else (px, py)
  else (px, py)

/-- The mutable state touched by the two movement key handlers of the main
loop: position, heading (quarter-turn count) and the mode flag `in_est`. -/
structure World where
  px : ℚ
  py : ℚ
  angle : ℤ
  in_est : Option String

/-- The `K_w`/`K_UP` KEYDOWN branch of the main loop (lines 518-523):
`entered = step_forward(); if entered: in_est = entered`.  The truthiness
check `if entered:` leaves `in_est` unchanged when the returned value is
`None` or the empty string. -/
def onForwardKey (m : GameMap) (ests : List (Char × Est)) (s : World) : World :=
  { px := (step_forward m ests s.px s.py s.angle).1,
    py := (step_forward m ests s.px s.py s.angle).2.1,
    angle := s.angle,
    in_est := match (step_forward m ests s.px s.py s.angle).2.2 with
              | some t => if t.isEmpty then s.in_est else some t
              | none => s.in_est }

/-- The `K_s`/`K_DOWN` KEYDOWN branch of the main loop (lines 524-527):
`step_backward()` with its return value discarded. -/
def onBackwardKey (m : GameMap) (s : World) : World :=
  { px := (step_backward m s.px s.py s.angle).1,
    py := (step_backward m s.px s.py s.angle).2,
    angle := s.angle,
    in_est := s.in_est }

/-! ### Raycasting (`cast_rays`, lines 150-188)

The per-ray march of `cast_rays` depends on the ray only through
`sin(ray_ang)`, `cos(ray_ang)` and the fish-eye factor `cos(pa - ray_ang)`,
which are real numbers; they are passed to the embedded functions as rational
parameters `sinA`, `cosA`, `cosDiff`.  The float `depth` accumulated by
`depth += 0.05` is modelled by the exact IEEE-754 binary64 rounding of every
increment (`roundDouble`, with `c005` the double nearest `0.05`): the
accumulated double after 800 increments is `40 - 1.35e-13`, still below
`MAX_DEPTH`, so the loop runs an 801st iteration, samples once more at depth
`floatDepth 801 ≈ 40.05`, and reports that depth on exhaustion.  The
multiply-accumulate of the sample position `px + cos_a * depth` itself is
modelled in exact arithmetic. -/

/-- The floor of a rational, written with primitive integer division so that
it evaluates by machine arithmetic (`Int.div` rounds toward minus infinity on
a positive denominator via `ediv`; equal to `Int.floor`, see `ratFloor_eq`). -/
def ratFloor (q : ℚ) : ℤ := q.num / q.den

/-- The integer nearest to `x`, ties going to the even integer. -/
def roundHalfEven (x : ℚ) : ℤ :=
  if x - (ratFloor x : ℚ) < 1/2 then ratFloor x
  else if 1/2 < x - (ratFloor x : ℚ) then ratFloor x + 1
  else if ratFloor x % 2 = 0 then ratFloor x else ratFloor x + 1

/-- Floor of the base-2 logarithm on naturals (`0` for `0`), by structural
recursion on a fuel argument (`fuel = n` always suffices: the argument at
least halves each step). -/
def natLog2Go : ℕ → ℕ → ℕ
  | 0, _ => 0
  | fuel + 1, n => if 2 ≤ n then natLog2Go fuel (n / 2) + 1 else 0

/-- `⌊log2 n⌋` for `n ≥ 1`, and `0` for `n = 0`. -/
def natLog2 (n : ℕ) : ℕ := natLog2Go n n

/-- Decides `q < 2 ^ c` by cross-multiplying numerator and denominator, in
pure integer arithmetic (see `qLtTwoPow_iff`). -/
def qLtTwoPow (q : ℚ) (c : ℤ) : Bool :=
  if 0 ≤ c then decide (q.num < ((2 ^ c.toNat : ℕ) : ℤ) * (q.den : ℤ))
  else decide (q.num * ((2 ^ (-c).toNat : ℕ) : ℤ) < (q.den : ℤ))

/-- `⌊log2 q⌋` for positive `q`, computed from the bit lengths of the
reduced numerator and denominator, with a final correction step. -/
def ilog2q (q : ℚ) : ℤ :=
  if qLtTwoPow q ((natLog2 q.num.natAbs : ℤ) - (natLog2 q.den : ℤ))
  then (natLog2 q.num.natAbs : ℤ) - (natLog2 q.den : ℤ) - 1
  else (natLog2 q.num.natAbs : ℤ) - (natLog2 q.den : ℤ)

/-- IEEE-754 binary64 rounding (round to nearest, ties to even) of a
positive rational in the normal range: scale into `[2^52, 2^53)`, round to
an integer, scale back.  Overflow and subnormals are not modelled (the
march's depths stay inside `(0, 64)`); non-positive input returns `0`. -/
def roundDouble (q : ℚ) : ℚ :=
  if q ≤ 0 then 0
  else if ilog2q q ≤ 52 then
    (roundHalfEven (q * ((2 ^ (52 - ilog2q q).toNat : ℕ) : ℚ)) : ℚ)
      / ((2 ^ (52 - ilog2q q).toNat : ℕ) : ℚ)
  else
    (roundHalfEven (q / ((2 ^ (ilog2q q - 52).toNat : ℕ) : ℚ)) : ℚ)
      * ((2 ^ (ilog2q q - 52).toNat : ℕ) : ℚ)

/-- The binary64 double nearest the source literal `0.05`. -/
def c005 : ℚ := 3602879701896397 / 2 ^ 56

/-- The value of the loop variable `depth` after `n` further binary64
increments `depth += 0.05` starting from `d`. -/
def floatDepthFrom : ℕ → ℚ → ℚ
  | 0, d => d
  | n + 1, d => floatDepthFrom n (roundDouble (d + c005))

/-- The value of `depth` after `k` increments from `0.0`. -/
def floatDepth (k : ℕ) : ℚ := floatDepthFrom k 0

/-- One pass over the increment chain checking the loop guard
`depth < MAX_DEPTH`: the guard holds before each of the `n` increments and
fails after the last one.  `floatDepthChainOk 801 0 = true` holds by
computation: the guard of `cast_rays` first fails after 801 increments. -/
def floatDepthChainOk : ℕ → ℚ → Bool
  | 0, d => decide (¬ d < MAX_DEPTH)
  | n + 1, d => decide (d < MAX_DEPTH) && floatDepthChainOk n (roundDouble (d + c005))

/-- The `while depth < MAX_DEPTH` loop body of `cast_rays` (lines 160-172),
carrying the current accumulated depth exactly like the source's `depth`
variable; `fuel` bounds the remaining iterations (802 is enough and is never
exhausted).  Returns `(depth, hit_ch, hit_x, hit_y)` with `hit_ch = none`
when the loop ran out of depth; `hit_x`/`hit_y` keep their `0.0`
initialization except on an in-bounds hit, exactly as in the source. -/
def marchAux (m : GameMap) (px py cosA sinA : ℚ) : ℚ → ℕ → ℚ × Option Char × ℚ × ℚ
  | depth, 0 => (depth, none, 0, 0)
  | depth, fuel + 1 =>
    if depth < MAX_DEPTH then
      if pytrunc (px + cosA * roundDouble (depth + c005)) < 0
         ∨ pytrunc (py + sinA * roundDouble (depth + c005)) < 0
         ∨ (MAP_W m : ℤ) ≤ pytrunc (px + cosA * roundDouble (depth + c005))
         ∨ (MAP_H m : ℤ) ≤ pytrunc (py + sinA * roundDouble (depth + c005)) then
        (roundDouble (depth + c005), some '#', 0, 0)
      else if mapAt m (pytrunc (px + cosA * roundDouble (depth + c005)))
              (pytrunc (py + sinA * roundDouble (depth + c005))) ≠ '.' then
        (roundDouble (depth + c005),
         some (mapAt m (pytrunc (px + cosA * roundDouble (depth + c005)))
                 (pytrunc (py + sinA * roundDouble (depth + c005)))),
         px + cosA * roundDouble (depth + c005),
         py + sinA * roundDouble (depth + c005))
      else marchAux m px py cosA sinA (roundDouble (depth + c005)) fuel
    else (depth, none, 0, 0)

/-- One ray of `cast_rays`: the march loop followed by
`if hit_ch is None: hit_ch = "."` (lines 157-174).  Returns
`(depth, hit_ch, hit_x, hit_y)`. -/
def cast_ray (m : GameMap) (px py cosA sinA : ℚ) : ℚ × Char × ℚ × ℚ :=
  match marchAux m px py cosA sinA 0 802 with
  | (d, some c, hx, hy) => (d, c, hx, hy)
  | (d, none, hx, hy) => (d, '.', hx, hy)

/-- Fish-eye correction with epsilon floor (lines 176-177):
`depth_corr = depth * cos(pa - ray_ang); if depth_corr <= 0: depth_corr = 0.0001`. -/
def corrDepth (d cosDiff : ℚ) : ℚ := if d * cosDiff ≤ 0 then 1 / 10000 else d * cosDiff

/-- Projected wall-column height (line 178):
`proj_h = min(int((TILE * RES_Y) / (depth_corr * 160)), RES_Y * 2)`. -/
def proj_height (dc : ℚ) : ℤ :=
  min (pytrunc (((TILE : ℚ) * (RES_Y : ℚ)) / (dc * 160))) ((RES_Y : ℤ) * 2)

/-- Texture-sampling fraction (lines 180-186): on a hit, the fractional part
of whichever hit coordinate deviates more from an integer boundary, made
absolute; `0.0` when no tile was hit. -/
def hitFrac (hit_ch : Char) (hit_x hit_y : ℚ) : ℚ :=
  if hit_ch ≠ '.' then
    if |hit_x - (pytrunc hit_x : ℚ)| > |hit_y - (pytrunc hit_y : ℚ)| then
      |hit_x - (pytrunc hit_x : ℚ)|
    else
      |hit_y - (pytrunc hit_y : ℚ)|
  else 0

/-- One entry of the list returned by `cast_rays` (line 187). -/
structure RaySample where
  depth : ℚ
  proj_h : ℤ
  ray : ℕ
  ch : Char
  frac : ℚ

/-- Assembly of one ray sample by `cast_rays` (lines 154-187), with the
transcendental per-ray values `cos(ray_ang)`, `sin(ray_ang)` and
`cos(pa - ray_ang)` as parameters. -/
def mkRaySample (m : GameMap) (px py cosA sinA cosDiff : ℚ) (r : ℕ) : RaySample :=
  { depth := corrDepth (cast_ray m px py cosA sinA).1 cosDiff,
    proj_h := proj_height (corrDepth (cast_ray m px py cosA sinA).1 cosDiff),
    ray := r,
    ch := (cast_ray m px py cosA sinA).2.1,
    frac := hitFrac (cast_ray m px py cosA sinA).2.1
      (cast_ray m px py cosA sinA).2.2.1 (cast_ray m px py cosA sinA).2.2.2 }

/-- Ray-angle offset `ray_ang - pa` of ray `r`, expressed exactly in units of
`π/320` (lines 152-154: `start_ang = pa - HALF_FOV`, `ray_ang = start_ang +
r * DELTA_ANGLE`, where `HALF_FOV = π/4 = 80·(π/320)` and
`DELTA_ANGLE = FOV/NUM_RAYS = (π/2)/160 = π/320`). -/
def rayAngleOffset (r : ℕ) : ℤ := -80 + (r : ℤ) * 1

/-- `get_texture_for` from `main_pygame.py` (lines 136-147), with the loaded
texture surfaces replaced by their identities. -/
inductive Texture
  | wallStone
  | wallWood
  | wallShop
  | door
  deriving DecidableEq

/-- `get_texture_for`: map characters to textures, case-insensitive, default
stone. -/
def get_texture_for (ch : Char) : Texture :=
  if ch.toUpper = '#' then Texture.wallStone
  else if ch.toUpper = 'W' ∨ ch.toUpper = 'T' then Texture.wallWood
  else if ch.toUpper = 'S' ∨ ch.toUpper = 'B' ∨ ch.toUpper = 'G' ∨ ch.toUpper = 'H' then
    Texture.wallShop
  else if ch.toUpper = 'D' then Texture.door
  else Texture.wallStone

/-- Decidable clearance predicate for one ray sample: the sample point at
depth `d` truncates to an in-bounds cell that holds `'.'`. -/
def sampleClearAt (m : GameMap) (px py cosA sinA d : ℚ) : Bool :=
  decide (0 ≤ pytrunc (px + cosA * d))
  && decide (pytrunc (px + cosA * d) < (MAP_W m : ℤ))
  && decide (0 ≤ pytrunc (py + sinA * d))
  && decide (pytrunc (py + sinA * d) < (MAP_H m : ℤ))
  && decide (mapAt m (pytrunc (px + cosA * d)) (pytrunc (py + sinA * d)) = '.')

/-- All `n` sample points of the increment chain starting from depth `d` are
clear (in bounds and on `'.'`). -/
def clearChain (m : GameMap) (px py cosA sinA : ℚ) : ℕ → ℚ → Bool
  | 0, _ => true
  | n + 1, d =>
    sampleClearAt m px py cosA sinA (roundDouble (d + c005))
      && clearChain m px py cosA sinA n (roundDouble (d + c005))

/-- One verified step of the increment chain: `b` is exactly the binary64
result of `a + 0.05`, checked on the reduced numerator and denominator. -/
def stepOk (a b : ℚ) : Bool :=
  (roundDouble (a + c005)).num == b.num && (roundDouble (a + c005)).den == b.den

/-- The last element of `a :: l`. -/
def lastD : ℚ → List ℚ → ℚ
  | a, [] => a
  | _, b :: t => lastD b t

/-- Verified replay of the increment chain along an explicit list of values:
every step matches `roundDouble`, the loop guard `depth < MAX_DEPTH` passes
before each step and fails at the final value. -/
def chainCheck : ℚ → List ℚ → Bool
  | a, [] => decide (¬ a < MAX_DEPTH)
  | a, b :: t => decide (a < MAX_DEPTH) && stepOk a b && chainCheck b t

/-- Clearance of all sample points along an explicit list of depths. -/
def clearAlong (m : GameMap) (px py cosA sinA : ℚ) : List ℚ → Bool
  | [] => true
  | b :: t => sampleClearAt m px py cosA sinA b && clearAlong m px py cosA sinA t

set_option maxRecDepth 1000000 in
set_option maxHeartbeats 4000000 in
/-- The 801 successive values of the binary64 accumulator `depth` of
`cast_rays` (`0.05`, `0.1`, ..., up to the first value not below
`MAX_DEPTH`), as reduced dyadic rationals `(numerator, exponent of two)`;
`chainCheck` recomputes and certifies every step (`depthChain_check`). -/
def rawChain : List (ℤ × ℕ) := [
  (3602879701896397, 56),
  (3602879701896397, 55),
  (1351079888211149, 53),
  (3602879701896397, 54),
  (1, 2),
  (5404319552844595, 54),
  (3152519739159347, 53),
  (7205759403792793, 54),
  (2026619832316723, 52),
  (9007199254740991, 54),
  (4953959590107545, 53),
  (5404319552844595, 53),
  (5854679515581645, 53),
  (6305039478318695, 53),
  (6755399441055745, 53),
  (7205759403792795, 53),
  (7656119366529845, 53),
  (8106479329266895, 53),
  (8556839292003945, 53),
  (4503599627370497, 52),
  (2364389804369511, 51),
  (4953959590107547, 52),
  (647392446434509, 49),
  (5404319552844597, 52),
  (2814749767106561, 51),
  (5854679515581647, 52),
  (1519964874237543, 50),
  (6305039478318697, 52),
  (3265109729843611, 51),
  (6755399441055747, 52),
  (436286213901517, 48),
  (7205759403792797, 52),
  (3715469692580661, 51),
  (7656119366529847, 52),
  (1970324836974593, 50),
  (8106479329266897, 52),
  (4165829655317711, 51),
  (8556839292003947, 52),
  (1097752409171559, 49),
  (2251799813685249, 50),
  (577023702256845, 48),
  (2364389804369511, 50),
  (1210342399855821, 49),
  (2476979795053773, 50),
  (9, 2),
  (2589569785738035, 50),
  (1322932390540083, 49),
  (2702159776422297, 50),
  (689613692941107, 48),
  (2814749767106559, 50),
  (1435522381224345, 49),
  (2927339757790821, 50),
  (372954344141619, 47),
  (3039929748475083, 50),
  (1548112371908607, 49),
  (3152519739159345, 50),
  (802203683625369, 48),
  (3265109729843607, 50),
  (1660702362592869, 49),
  (3377699720527869, 50),
  (214624669741875, 46),
  (3490289711212131, 50),
  (1773292353277131, 49),
  (3602879701896393, 50),
  (914793674309631, 48),
  (3715469692580655, 50),
  (1885882343961393, 49),
  (3828059683264917, 50),
  (485544334825881, 47),
  (3940649673949179, 50),
  (1998472334645655, 49),
  (4053239664633441, 50),
  (1027383664993893, 48),
  (4165829655317703, 50),
  (2111062325329917, 49),
  (4278419646001965, 50),
  (135459832542003, 45),
  (4391009636686227, 50),
  (2223652316014179, 49),
  (4503599627370489, 50),
  (1139973655678155, 48),
  (4616189618054751, 50),
  (2336242306698441, 49),
  (4728779608739013, 50),
  (598134325510143, 47),
  (4841369599423275, 50),
  (2448832297382703, 49),
  (4953959590107537, 50),
  (1252563646362417, 48),
  (5066549580791799, 50),
  (2561422288066965, 49),
  (5179139571476061, 50),
  (327214660426137, 46),
  (5291729562160323, 50),
  (2674012278751227, 49),
  (5404319552844585, 50),
  (1365153637046679, 48),
  (5516909543528847, 50),
  (2786602269435489, 49),
  (5629499534213109, 50),
  (710724316194405, 47),
  (5742089524897371, 50),
  (2899192260119751, 49),
  (5854679515581633, 50),
  (1477743627730941, 48),
  (5967269506265895, 50),
  (3011782250804013, 49),
  (6079859496950157, 50),
  (95877413942067, 44),
  (6192449487634419, 50),
  (3124372241488275, 49),
  (6305039478318681, 50),
  (1590333618415203, 48),
  (6417629469002943, 50),
  (3236962232172537, 49),
  (6530219459687205, 50),
  (823314306878667, 47),
  (6642809450371467, 50),
  (3349552222856799, 49),
  (6755399441055729, 50),
  (1702923609099465, 48),
  (6867989431739991, 50),
  (3462142213541061, 49),
  (6980579422424253, 50),
  (439804651110399, 46),
  (7093169413108515, 50),
  (3574732204225323, 49),
  (7205759403792777, 50),
  (1815513599783727, 48),
  (7318349394477039, 50),
  (3687322194909585, 49),
  (7430939385161301, 50),
  (935904297562929, 47),
  (7543529375845563, 50),
  (3799912185593847, 49),
  (7656119366529825, 50),
  (1928103590467989, 48),
  (7768709357214087, 50),
  (3912502176278109, 49),
  (7881299347898349, 50),
  (248049823226265, 45),
  (7993889338582611, 50),
  (4025092166962371, 49),
  (8106479329266873, 50),
  (2040693581152251, 48),
  (8219069319951135, 50),
  (4137682157646633, 49),
  (8331659310635397, 50),
  (1048494288247191, 47),
  (8444249301319659, 50),
  (4250272148330895, 49),
  (8556839292003921, 50),
  (2153283571836513, 48),
  (8669429282688183, 50),
  (4362862139015157, 49),
  (8782019273372445, 50),
  (552394641794661, 46),
  (8894609264056707, 50),
  (4475452129699419, 49),
  (9007199254740969, 50),
  (2265873562520775, 48),
  (569986827839077, 46),
  (2294021060191841, 48),
  (1154047404513687, 47),
  (2322168557862907, 48),
  (292030288337305, 45),
  (2350316055533973, 48),
  (1182194902184753, 47),
  (2378463553205039, 48),
  (598134325510143, 46),
  (2406611050876105, 48),
  (1210342399855819, 47),
  (2434758548547171, 48),
  (153052018586419, 44),
  (2462906046218237, 48),
  (1238489897526885, 47),
  (2491053543889303, 48),
  (626281823181209, 46),
  (2519201041560369, 48),
  (1266637395197951, 47),
  (2547348539231435, 48),
  (320177786008371, 45),
  (2575496036902501, 48),
  (1294784892869017, 47),
  (2603643534573567, 48),
  (654429320852275, 46),
  (2631791032244633, 48),
  (1322932390540083, 47),
  (2659938529915699, 48),
  (19, 1),
  (2688086027586765, 48),
  (1351079888211149, 47),
  (2716233525257831, 48),
  (682576818523341, 46),
  (2744381022928897, 48),
  (1379227385882215, 47),
  (2772528520599963, 48),
  (348325283679437, 45),
  (2800676018271029, 48),
  (1407374883553281, 47),
  (2828823515942095, 48),
  (710724316194407, 46),
  (2856971013613161, 48),
  (1435522381224347, 47),
  (2885118511284227, 48),
  (181199516257485, 44),
  (2913266008955293, 48),
  (1463669878895413, 47),
  (2941413506626359, 48),
  (738871813865473, 46),
  (2969561004297425, 48),
  (1491817376566479, 47),
  (2997708501968491, 48),
  (376472781350503, 45),
  (3025855999639557, 48),
  (1519964874237545, 47),
  (3054003497310623, 48),
  (767019311536539, 46),
  (3082150994981689, 48),
  (1548112371908611, 47),
  (3110298492652755, 48),
  (97636632546509, 43),
  (3138445990323821, 48),
  (1576259869579677, 47),
  (3166593487994887, 48),
  (795166809207605, 46),
  (3194740985665953, 48),
  (1604407367250743, 47),
  (3222888483337019, 48),
  (404620279021569, 45),
  (3251035981008085, 48),
  (1632554864921809, 47),
  (3279183478679151, 48),
  (823314306878671, 46),
  (3307330976350217, 48),
  (1660702362592875, 47),
  (3335478474021283, 48),
  (209347013928551, 44),
  (3363625971692349, 48),
  (1688849860263941, 47),
  (3391773469363415, 48),
  (851461804549737, 46),
  (3419920967034481, 48),
  (1716997357935007, 47),
  (3448068464705547, 48),
  (432767776692635, 45),
  (3476215962376613, 48),
  (1745144855606073, 47),
  (3504363460047679, 48),
  (879609302220803, 46),
  (3532510957718745, 48),
  (1773292353277139, 47),
  (3560658455389811, 48),
  (55855190691021, 42),
  (3588805953060877, 48),
  (1801439850948205, 47),
  (3616953450731943, 48),
  (907756799891869, 46),
  (3645100948403009, 48),
  (1829587348619271, 47),
  (3673248446074075, 48),
  (460915274363701, 45),
  (3701395943745141, 48),
  (1857734846290337, 47),
  (3729543441416207, 48),
  (935904297562935, 46),
  (3757690939087273, 48),
  (1885882343961403, 47),
  (3785838436758339, 48),
  (237494511599617, 44),
  (3813985934429405, 48),
  (1914029841632469, 47),
  (3842133432100471, 48),
  (964051795234001, 46),
  (3870280929771537, 48),
  (1942177339303535, 47),
  (3898428427442603, 48),
  (489062772034767, 45),
  (3926575925113669, 48),
  (1970324836974601, 47),
  (3954723422784735, 48),
  (992199292905067, 46),
  (3982870920455801, 48),
  (1998472334645667, 47),
  (4011018418126867, 48),
  (125784130217575, 43),
  (4039165915797933, 48),
  (2026619832316733, 47),
  (4067313413468999, 48),
  (1020346790576133, 46),
  (4095460911140065, 48),
  (2054767329987799, 47),
  (4123608408811131, 48),
  (517210269705833, 45),
  (4151755906482197, 48),
  (2082914827658865, 47),
  (4179903404153263, 48),
  (1048494288247199, 46),
  (4208050901824329, 48),
  (2111062325329931, 47),
  (4236198399495395, 48),
  (265642009270683, 44),
  (4264345897166461, 48),
  (2139209823000997, 47),
  (4292493394837527, 48),
  (1076641785918265, 46),
  (4320640892508593, 48),
  (2167357320672063, 47),
  (4348788390179659, 48),
  (545357767376899, 45),
  (4376935887850725, 48),
  (2195504818343129, 47),
  (4405083385521791, 48),
  (1104789283589331, 46),
  (4433230883192857, 48),
  (2223652316014195, 47),
  (4461378380863923, 48),
  (34964469763277, 41),
  (4489525878534989, 48),
  (2251799813685261, 47),
  (4517673376206055, 48),
  (1132936781260397, 46),
  (4545820873877121, 48),
  (2279947311356327, 47),
  (4573968371548187, 48),
  (573505265047965, 45),
  (4602115869219253, 48),
  (2308094809027393, 47),
  (4630263366890319, 48),
  (1161084278931463, 46),
  (4658410864561385, 48),
  (2336242306698459, 47),
  (4686558362232451, 48),
  (293789506941749, 44),
  (4714705859903517, 48),
  (2364389804369525, 47),
  (4742853357574583, 48),
  (1189231776602529, 46),
  (4771000855245649, 48),
  (2392537302040591, 47),
  (4799148352916715, 48),
  (601652762719031, 45),
  (4827295850587781, 48),
  (2420684799711657, 47),
  (4855443348258847, 48),
  (1217379274273595, 46),
  (4883590845929913, 48),
  (2448832297382723, 47),
  (4911738343600979, 48),
  (153931627888641, 43),
  (4939885841272045, 48),
  (2476979795053789, 47),
  (4968033338943111, 48),
  (1245526771944661, 46),
  (4996180836614177, 48),
  (2505127292724855, 47),
  (5024328334285243, 48),
  (629800260390097, 45),
  (5052475831956309, 48),
  (2533274790395921, 47),
  (5080623329627375, 48),
  (1273674269615727, 46),
  (5108770827298441, 48),
  (2561422288066987, 47),
  (5136918324969507, 48),
  (321937004612815, 44),
  (5165065822640573, 48),
  (2589569785738053, 47),
  (5193213320311639, 48),
  (1301821767286793, 46),
  (5221360817982705, 48),
  (2617717283409119, 47),
  (5249508315653771, 48),
  (657947758061163, 45),
  (5277655813324837, 48),
  (2645864781080185, 47),
  (5305803310995903, 48),
  (1329969264957859, 46),
  (5333950808666969, 48),
  (2674012278751251, 47),
  (5362098306338035, 48),
  (84002688362087, 42),
  (5390245804009101, 48),
  (2702159776422317, 47),
  (5418393301680167, 48),
  (1358116762628925, 46),
  (5446540799351233, 48),
  (2730307274093383, 47),
  (5474688297022299, 48),
  (686095255732229, 45),
  (5502835794693365, 48),
  (2758454771764449, 47),
  (5530983292364431, 48),
  (1386264260299991, 46),
  (5559130790035497, 48),
  (2786602269435515, 47),
  (5587278287706563, 48),
  (350084502283881, 44),
  (5615425785377629, 48),
  (2814749767106581, 47),
  (5643573283048695, 48),
  (1414411757971057, 46),
  (5671720780719761, 48),
  (2842897264777647, 47),
  (5699868278390827, 48),
  (714242753403295, 45),
  (5728015776061893, 48),
  (2871044762448713, 47),
  (5756163273732959, 48),
  (1442559255642123, 46),
  (5784310771404025, 48),
  (2899192260119779, 47),
  (5812458269075091, 48),
  (182079125559707, 43),
  (5840605766746157, 48),
  (2927339757790845, 47),
  (5868753264417223, 48),
  (1470706753313189, 46),
  (5896900762088289, 48),
  (2955487255461911, 47),
  (5925048259759355, 48),
  (742390251074361, 45),
  (5953195757430421, 48),
  (2983634753132977, 47),
  (5981343255101487, 48),
  (1498854250984255, 46),
  (6009490752772553, 48),
  (3011782250804043, 47),
  (6037638250443619, 48),
  (378231999954947, 44),
  (6065785748114685, 48),
  (3039929748475109, 47),
  (6093933245785751, 48),
  (1527001748655321, 46),
  (6122080743456817, 48),
  (3068077246146175, 47),
  (6150228241127883, 48),
  (770537748745427, 45),
  (6178375738798949, 48),
  (3096224743817241, 47),
  (6206523236470015, 48),
  (1555149246326387, 46),
  (6234670734141081, 48),
  (3124372241488307, 47),
  (6262818231812147, 48),
  (24519109299405, 40),
  (6290965729483213, 48),
  (3152519739159373, 47),
  (6319113227154279, 48),
  (1583296743997453, 46),
  (6347260724825345, 48),
  (3180667236830439, 47),
  (6375408222496411, 48),
  (798685246416493, 45),
  (6403555720167477, 48),
  (3208814734501505, 47),
  (6431703217838543, 48),
  (1611444241668519, 46),
  (6459850715509609, 48),
  (3236962232172571, 47),
  (6487998213180675, 48),
  (406379497626013, 44),
  (6516145710851741, 48),
  (3265109729843637, 47),
  (6544293208522807, 48),
  (1639591739339585, 46),
  (6572440706193873, 48),
  (3293257227514703, 47),
  (6600588203864939, 48),
  (826832744087559, 45),
  (6628735701536005, 48),
  (3321404725185769, 47),
  (6656883199207071, 48),
  (1667739237010651, 46),
  (6685030696878137, 48),
  (3349552222856835, 47),
  (6713178194549203, 48),
  (210226623230773, 43),
  (6741325692220269, 48),
  (3377699720527901, 47),
  (6769473189891335, 48),
  (1695886734681717, 46),
  (6797620687562401, 48),
  (3405847218198967, 47),
  (6825768185233467, 48),
  (854980241758625, 45),
  (6853915682904533, 48),
  (3433994715870033, 47),
  (6882063180575599, 48),
  (1724034232352783, 46),
  (6910210678246665, 48),
  (3462142213541099, 47),
  (6938358175917731, 48),
  (434526995297079, 44),
  (6966505673588797, 48),
  (3490289711212165, 47),
  (6994653171259863, 48),
  (1752181730023849, 46),
  (7022800668930929, 48),
  (3518437208883231, 47),
  (7050948166601995, 48),
  (883127739429691, 45),
  (7079095664273061, 48),
  (3546584706554297, 47),
  (7107243161944127, 48),
  (1780329227694915, 46),
  (7135390659615193, 48),
  (3574732204225363, 47),
  (7163538157286259, 48),
  (112150186033153, 42),
  (7191685654957325, 48),
  (3602879701896429, 47),
  (7219833152628391, 48),
  (1808476725365981, 46),
  (7247980650299457, 48),
  (3631027199567495, 47),
  (7276128147970523, 48),
  (911275237100757, 45),
  (7304275645641589, 48),
  (3659174697238561, 47),
  (7332423143312655, 48),
  (1836624223037047, 46),
  (7360570640983721, 48),
  (3687322194909627, 47),
  (7388718138654787, 48),
  (462674492968145, 44),
  (7416865636325853, 48),
  (3715469692580693, 47),
  (7445013133996919, 48),
  (1864771720708113, 46),
  (7473160631667985, 48),
  (3743617190251759, 47),
  (7501308129339051, 48),
  (939422734771823, 45),
  (7529455627010117, 48),
  (3771764687922825, 47),
  (7557603124681183, 48),
  (1892919218379179, 46),
  (7585750622352249, 48),
  (3799912185593891, 47),
  (7613898120023315, 48),
  (238374120901839, 43),
  (7642045617694381, 48),
  (3828059683264957, 47),
  (7670193115365447, 48),
  (1921066716050245, 46),
  (7698340613036513, 48),
  (3856207180936023, 47),
  (7726488110707579, 48),
  (967570232442889, 45),
  (7754635608378645, 48),
  (3884354678607089, 47),
  (7782783106049711, 48),
  (1949214213721311, 46),
  (7810930603720777, 48),
  (3912502176278155, 47),
  (7839078101391843, 48),
  (490821990639211, 44),
  (7867225599062909, 48),
  (3940649673949221, 47),
  (7895373096733975, 48),
  (1977361711392377, 46),
  (7923520594405041, 48),
  (3968797171620287, 47),
  (7951668092076107, 48),
  (995717730113955, 45),
  (7979815589747173, 48),
  (3996944669291353, 47),
  (8007963087418239, 48),
  (2005509209063443, 46),
  (8036110585089305, 48),
  (4025092166962419, 47),
  (8064258082760371, 48),
  (63111967434343, 41),
  (8092405580431437, 48),
  (4053239664633485, 47),
  (8120553078102503, 48),
  (2033656706734509, 46),
  (8148700575773569, 48),
  (4081387162304551, 47),
  (8176848073444635, 48),
  (1023865227785021, 45),
  (8204995571115701, 48),
  (4109534659975617, 47),
  (8233143068786767, 48),
  (2061804204405575, 46),
  (8261290566457833, 48),
  (4137682157646683, 47),
  (8289438064128899, 48),
  (518969488310277, 44),
  (8317585561799965, 48),
  (4165829655317749, 47),
  (8345733059471031, 48),
  (2089951702076641, 46),
  (8373880557142097, 48),
  (4193977152988815, 47),
  (8402028054813163, 48),
  (1052012725456087, 45),
  (8430175552484229, 48),
  (4222124650659881, 47),
  (8458323050155295, 48),
  (2118099199747707, 46),
  (8486470547826361, 48),
  (4250272148330947, 47),
  (8514618045497427, 48),
  (266521618572905, 43),
  (8542765543168493, 48),
  (4278419646002013, 47),
  (8570913040839559, 48),
  (2146246697418773, 46),
  (8599060538510625, 48),
  (4306567143673079, 47),
  (8627208036181691, 48),
  (1080160223127153, 45),
  (8655355533852757, 48),
  (4334714641344145, 47),
  (8683503031523823, 48),
  (2174394195089839, 46),
  (8711650529194889, 48),
  (4362862139015211, 47),
  (8739798026865955, 48),
  (547116985981343, 44),
  (8767945524537021, 48),
  (4391009636686277, 47),
  (8796093022208087, 48),
  (2202541692760905, 46),
  (8824240519879153, 48),
  (4419157134357343, 47),
  (8852388017550219, 48),
  (1108307720798219, 45),
  (8880535515221285, 48),
  (4447304632028409, 47),
  (8908683012892351, 48),
  (2230689190431971, 46),
  (8936830510563417, 48),
  (4475452129699475, 47),
  (8964978008234483, 48),
  (140297683704219, 42),
  (8993125505905549, 48),
  (4503599627370541, 47),
  (4510636501788307, 47),
  (4517673376206073, 47),
  (4524710250623839, 47),
  (4531747125041605, 47),
  (4538783999459371, 47),
  (4545820873877137, 47),
  (4552857748294903, 47),
  (4559894622712669, 47),
  (4566931497130435, 47),
  (4573968371548201, 47),
  (4581005245965967, 47),
  (4588042120383733, 47),
  (4595078994801499, 47),
  (4602115869219265, 47),
  (4609152743637031, 47),
  (4616189618054797, 47),
  (4623226492472563, 47),
  (4630263366890329, 47),
  (4637300241308095, 47),
  (4644337115725861, 47),
  (4651373990143627, 47),
  (4658410864561393, 47),
  (4665447738979159, 47),
  (4672484613396925, 47),
  (4679521487814691, 47),
  (4686558362232457, 47),
  (4693595236650223, 47),
  (4700632111067989, 47),
  (4707668985485755, 47),
  (4714705859903521, 47),
  (4721742734321287, 47),
  (4728779608739053, 47),
  (4735816483156819, 47),
  (4742853357574585, 47),
  (4749890231992351, 47),
  (4756927106410117, 47),
  (4763963980827883, 47),
  (4771000855245649, 47),
  (4778037729663415, 47),
  (4785074604081181, 47),
  (4792111478498947, 47),
  (4799148352916713, 47),
  (4806185227334479, 47),
  (4813222101752245, 47),
  (4820258976170011, 47),
  (4827295850587777, 47),
  (4834332725005543, 47),
  (4841369599423309, 47),
  (4848406473841075, 47),
  (4855443348258841, 47),
  (4862480222676607, 47),
  (4869517097094373, 47),
  (4876553971512139, 47),
  (4883590845929905, 47),
  (4890627720347671, 47),
  (4897664594765437, 47),
  (4904701469183203, 47),
  (4911738343600969, 47),
  (4918775218018735, 47),
  (4925812092436501, 47),
  (4932848966854267, 47),
  (4939885841272033, 47),
  (4946922715689799, 47),
  (4953959590107565, 47),
  (4960996464525331, 47),
  (4968033338943097, 47),
  (4975070213360863, 47),
  (4982107087778629, 47),
  (4989143962196395, 47),
  (4996180836614161, 47),
  (5003217711031927, 47),
  (5010254585449693, 47),
  (5017291459867459, 47),
  (5024328334285225, 47),
  (5031365208702991, 47),
  (5038402083120757, 47),
  (5045438957538523, 47),
  (5052475831956289, 47),
  (5059512706374055, 47),
  (5066549580791821, 47),
  (5073586455209587, 47),
  (5080623329627353, 47),
  (5087660204045119, 47),
  (5094697078462885, 47),
  (5101733952880651, 47),
  (5108770827298417, 47),
  (5115807701716183, 47),
  (5122844576133949, 47),
  (5129881450551715, 47),
  (5136918324969481, 47),
  (5143955199387247, 47),
  (5150992073805013, 47),
  (5158028948222779, 47),
  (5165065822640545, 47),
  (5172102697058311, 47),
  (5179139571476077, 47),
  (5186176445893843, 47),
  (5193213320311609, 47),
  (5200250194729375, 47),
  (5207287069147141, 47),
  (5214323943564907, 47),
  (5221360817982673, 47),
  (5228397692400439, 47),
  (5235434566818205, 47),
  (5242471441235971, 47),
  (5249508315653737, 47),
  (5256545190071503, 47),
  (5263582064489269, 47),
  (5270618938907035, 47),
  (5277655813324801, 47),
  (5284692687742567, 47),
  (5291729562160333, 47),
  (5298766436578099, 47),
  (5305803310995865, 47),
  (5312840185413631, 47),
  (5319877059831397, 47),
  (5326913934249163, 47),
  (5333950808666929, 47),
  (5340987683084695, 47),
  (5348024557502461, 47),
  (5355061431920227, 47),
  (5362098306337993, 47),
  (5369135180755759, 47),
  (5376172055173525, 47),
  (5383208929591291, 47),
  (5390245804009057, 47),
  (5397282678426823, 47),
  (5404319552844589, 47),
  (5411356427262355, 47),
  (5418393301680121, 47),
  (5425430176097887, 47),
  (5432467050515653, 47),
  (5439503924933419, 47),
  (5446540799351185, 47),
  (5453577673768951, 47),
  (5460614548186717, 47),
  (5467651422604483, 47),
  (5474688297022249, 47),
  (5481725171440015, 47),
  (5488762045857781, 47),
  (5495798920275547, 47),
  (5502835794693313, 47),
  (5509872669111079, 47),
  (5516909543528845, 47),
  (5523946417946611, 47),
  (5530983292364377, 47),
  (5538020166782143, 47),
  (5545057041199909, 47),
  (5552093915617675, 47),
  (5559130790035441, 47),
  (5566167664453207, 47),
  (5573204538870973, 47),
  (5580241413288739, 47),
  (5587278287706505, 47),
  (5594315162124271, 47),
  (5601352036542037, 47),
  (5608388910959803, 47),
  (5615425785377569, 47),
  (5622462659795335, 47),
  (5629499534213101, 47),
  (5636536408630867, 47)]

/-- `rawChain` decoded to rationals. -/
def depthChain : List ℚ := rawChain.map (fun p => mkRat p.1 (2 ^ p.2))

/-- A 1-by-41 all-`'.'` map: marching east from `(0.5, 0.5)` stays in bounds
for the full 40 tiles of `MAX_DEPTH`. -/
def mapLong : GameMap := ⟨[List.replicate 41 '.']⟩

/-- Concrete one-row map `"..t"` used to instantiate the movement theorems. -/
def mapW1 : GameMap := ⟨[['.', '.', 't']]⟩

/-- Concrete establishment registry with a single tavern entry under `'t'`. -/
def estsW1 : List (Char × Est) :=
  [('t', ⟨some "tavern", some "Tavern", ["Drink Ale", "Eat Stew"]⟩)]

/-! ### Player stats (`player_data.py`) and establishment actions -/

/-- Python dict `.get(key, 0)` on the stats record. -/
def dictGet (d : List (String × ℤ)) (key : String) : ℤ :=
  match d.find? (fun p => p.1 == key) with
  | some p => p.2
  | none => 0

/-- Python dict assignment `d[key] = v` (replaces the existing binding in
place, appends otherwise). -/
def dictSet : List (String × ℤ) → String → ℤ → List (String × ℤ)
  | [], key, v => [(key, v)]
  | (k0, v0) :: rest, key, v =>
    if k0 = key then (k0, v) :: rest else (k0, v0) :: dictSet rest key v

/-- `modify_stat` from `player_data.py` (lines 39-42):
`stats[key] = max(0, stats.get(key, 0) + delta)`. -/
def modify_stat (stats : List (String × ℤ)) (key : String) (delta : ℤ) :
    List (String × ℤ) :=
  dictSet stats key (max 0 (dictGet stats key + delta))

/-- Python `.lower()` on an ASCII string. -/
def lowerStr (s : String) : String := ⟨s.data.map Char.toLower⟩

/-- Bool-valued sublist containment (used to model Python's `in` on strings). -/
def listInfixOf (pat : List Char) : List Char → Bool
  | [] => pat.isEmpty
  | c :: rest => pat.isPrefixOf (c :: rest) || listInfixOf pat rest

/-- Python `pat in s` on strings. -/
def strIn (pat s : String) : Bool := listInfixOf pat.toList s.toList

/-- The registry scan shared by `apply_est_action` and `draw_interior`
(`for k, v in est_defs.items(): if v.get("type") == est_type: menu =
v.get("menu", []); break`). -/
def findMenu : List (Char × Est) → String → Option (List String)
  | [], _ => none
  | (_, e) :: rest, t => if e.type = some t then some e.menu else findMenu rest t

/-- `apply_est_action` from `main_pygame.py` (lines 421-462): resolves the
selected raw-menu item by substring matching on its lowercased text and
applies the stat effects.  Returns the toast message (the Python return
value) together with the updated stats record (the Python function mutates
`player` in place; `save_player` file output is not modelled). -/
def apply_est_action (ests : List (Char × Est)) (est_type : String) (idx : ℤ)
    (player : List (String × ℤ)) : Option String × List (String × ℤ) :=
  match findMenu ests est_type with
  | none => (none, player)
  | some menu =>
    if menu.isEmpty ∨ idx < 0 ∨ (menu.length : ℤ) ≤ idx then (none, player)
    else
      let item := menu.getD idx.toNat ""
      let action := lowerStr item
      if strIn "drink" action then
        if 1 ≤ dictGet player "gold" then
          (some "You drink and feel refreshed.",
            modify_stat (modify_stat player "stamina" 5) "gold" (-1))
        else (some "Not enough gold to drink.", player)
      else if strIn "eat" action then
        if 2 ≤ dictGet player "gold" then
          (some "You eat a satisfying meal.",
            modify_stat (modify_stat player "health" 5) "gold" (-2))
        else (some "Not enough gold to eat.", player)
      else if strIn "sing" action then
        (some "Your song raises your spirits.", modify_stat player "charisma" 1)
      else if strIn "buy" action && strIn "round" action then
        if 5 ≤ dictGet player "gold" then
          (some "You buy a round — cheers!",
            modify_stat (modify_stat player "gold" (-5)) "charisma" 2)
        else (some "Not enough gold for a round.", player)
      else (some ("You chose: " ++ item), player)

/-- The menu as presented to the player by `draw_interior`
(`interior_mode.py`, lines 32-42): the same registry scan, a placeholder when
the menu is missing or empty, then the literal Exit/Esc items filtered out. -/
def draw_interior_menu (ests : List (Char × Est)) (est_type : String) : List String :=
  (match findMenu ests est_type with
    | none => ["(No actions available)"]
    | some menu => if menu.isEmpty then ["(No actions available)"] else menu).filter
    (fun mitem => !(strIn "exit" (lowerStr mitem)) && !(strIn "esc" (lowerStr mitem)))

/-- The bounds check actually performed by `apply_est_action` (line 430):
true exactly when a raw menu is registered for the type, is non-empty, and
`idx` lies inside the raw (unfiltered) menu. -/
def raw_idx_ok (ests : List (Char × Est)) (est_type : String) (idx : ℤ) : Bool :=
  match findMenu ests est_type with
  | none => false
  | some menu => !menu.isEmpty && decide (0 ≤ idx) && decide (idx < (menu.length : ℤ))

/-- Registry whose tavern has a literal `"Exit"` raw-menu item, which
`draw_interior` filters out of the presented menu. -/
def estsW2 : List (Char × Est) :=
  [('t', ⟨some "tavern", some "Tavern", ["Drink Ale", "Exit"]⟩)]

/-! ### Wall and label drawing (`draw_walls`, lines 204-273) -/

/-- One drawing side effect of `draw_walls`: a wall-column blit for ray `i`,
or a name label (or its drop shadow, drawn at a `(+2, +2)` pixel offset from
the label) for establishment identity `c` anchored at screen column
`anchor = x_off + ray_index * SCALE`.  Font-metric-dependent centering and
vertical placement are not modelled. -/
inductive WBlit
  | wallcol (i : ℕ)
  | shadowtxt (c : Char) (anchor : ℤ)
  | labeltxt (c : Char) (anchor : ℤ)
  deriving DecidableEq

/-- `x_off = (RES_X - NUM_RAYS * SCALE) // 2` (line 205). -/
def x_off : ℤ := ((RES_X : ℤ) - (NUM_RAYS : ℤ) * (SCALE : ℤ)) / 2

/-- The Python dict update `nearest_hits[ch] = info` (keeps the insertion
position of an existing key). -/
def dictUpdNearest : List (Char × ℕ × ℚ) → Char → ℕ × ℚ → List (Char × ℕ × ℚ)
  | [], c, v => [(c, v)]
  | (c0, v0) :: rest, c, v =>
    if c0 = c then (c0, v) :: rest else (c0, v0) :: dictUpdNearest rest c v

/-- Step 1 of `draw_walls` (lines 207-214): collect, per establishment
identity among the samples, the ray index and depth of the sample with
minimum corrected depth (strict `<`, so the first minimal sample wins). -/
def nearest_hits (ests : List (Char × Est)) (rays : List RaySample) :
    List (Char × ℕ × ℚ) :=
  (rays.enum).foldl
    (fun acc p =>
      if p.2.ch ≠ '.' ∧ (estLookup ests p.2.ch.toLower).isSome then
        match acc.find? (fun q => q.1 == p.2.ch) with
        | none => dictUpdNearest acc p.2.ch (p.1, p.2.depth)
        | some q =>
          if p.2.depth < q.2.2 then dictUpdNearest acc p.2.ch (p.1, p.2.depth) else acc
      else acc)
    []

/-- The blit sequence emitted by `draw_walls` (lines 216-273).  The label
loop of Step 3 (line 236) is nested inside the per-ray wall loop of Step 2
(line 217), exactly as in the source: after each wall column, every
`nearest_hits` entry emits its shadow and label again. -/
def draw_walls_blits (ests : List (Char × Est)) (rays : List RaySample) : List WBlit :=
  (rays.enum).foldr
    (fun p acc =>
      WBlit.wallcol p.1 ::
        ((nearest_hits ests rays).foldr
          (fun q acc2 =>
            WBlit.shadowtxt q.1 (x_off + (q.2.1 : ℤ) * (SCALE : ℤ)) ::
              WBlit.labeltxt q.1 (x_off + (q.2.1 : ℤ) * (SCALE : ℤ)) :: acc2)
          []) ++ acc)
    []

/-- The number of name-label blits for identity `c` in a frame's blit list. -/
def countLabelBlits (bs : List WBlit) (c : Char) : ℕ :=
  (bs.filter (fun b => match b with | WBlit.labeltxt c2 _ => c2 == c | _ => false)).length

/-- A concrete two-sample ray fan in which both rays hit the tavern tile
`'t'`, the first one nearer. -/
def raysW : List RaySample :=
  [⟨2, 144, 0, 't', 0⟩, ⟨3, 96, 1, 't', 0⟩]

/-! ### Sky and floor composition (`draw_sky_and_floor`, lines 191-202) -/

/-- Texture identities for the sky/floor blits. -/
inductive SFTex
  | skyDay
  | skyNight
  | floorTex
  deriving DecidableEq

/-- One `screen.blit` of `draw_sky_and_floor`: texture and destination
rectangle (pygame clips blits at the screen edges at composition time). -/
structure SFBlit where
  tex : SFTex
  x : ℕ
  y : ℕ
  w : ℕ
  h : ℕ
  deriving DecidableEq

/-- The sky blits (lines 193-198): `sky_h = RES_Y // 3`; the day or night
texture, selected by the flag, is blitted with `area = Rect(0, 0, t_w, sky_h)`
at `(x, 0)` for `x in range(0, RES_X, t_w)`, `t_w = TILE`.  The source
surface is only `TILE` x `TILE` (`safe_load_texture` smooth-scales every
texture, fallback included, to `(TILE, TILE)`), and pygame clips the area
rectangle to the source surface, so each blit actually covers `TILE` columns
and only `min (RES_Y / 3) TILE = TILE = 64` rows, not the full `sky_h = 240`
rows of the requested area. -/
def skyBlits (day_mode : Bool) : List SFBlit :=
  (List.range ((RES_X + TILE - 1) / TILE)).map
    (fun i => ⟨if day_mode then SFTex.skyDay else SFTex.skyNight,
      TILE * i, 0, TILE, min (RES_Y / 3) TILE⟩)

/-- The floor blits (lines 199-202): full 64x64 floor tiles at `(x, y)` for
`y in range(RES_Y // 2, RES_Y, TILE)` and `x in range(0, RES_X, TILE)`. -/
def floorBlits : List SFBlit :=
  (List.range ((RES_Y - RES_Y / 2 + TILE - 1) / TILE)).flatMap
    (fun j => (List.range ((RES_X + TILE - 1) / TILE)).map
      (fun i => ⟨SFTex.floorTex, TILE * i, RES_Y / 2 + TILE * j, TILE, TILE⟩))

/-- Whether a blit covers the frame pixel `(x, y)`. -/
def coversPt (b : SFBlit) (x y : ℕ) : Bool :=
  decide (b.x ≤ x) && decide (x < b.x + b.w) && decide (b.y ≤ y) && decide (y < b.y + b.h)

/-- The sky layer covers pixel `(x, y)`. -/
def skyCovered (day_mode : Bool) (x y : ℕ) : Bool :=
  (skyBlits day_mode).any (fun b => coversPt b x y)

/-- The floor layer covers pixel `(x, y)`. -/
def floorCovered (x y : ℕ) : Bool := floorBlits.any (fun b => coversPt b x y)

/-! Basic facts about `pytrunc` on the epsilon-biased candidate coordinates.
The player's position before a step is always a cell center `n + 1/2` with
`n : ℕ`, and the per-axis offset `d` of a quarter-turn step is `-1`, `0` or
`1`, so only two value shapes arise. -/

/-- `pytrunc` is the floor on nonnegative arguments and the ceiling on
negative ones. -/
lemma pytrunc_eq (q : ℚ) : pytrunc q = if 0 ≤ q then ⌊q⌋ else ⌈q⌉ := by
  unfold pytrunc
  by_cases h : 0 ≤ q
  · rw [if_pos h, Rat.floor_def]
    exact Int.tdiv_eq_ediv (Rat.num_nonneg.mpr h) (Int.natCast_nonneg _)
  · rw [if_neg h]
    have hq : q ≤ 0 := le_of_not_le h
    have hn : 0 ≤ -q.num := by
      have := Rat.num_nonneg.mpr (by linarith : (0 : ℚ) ≤ -q)
      rwa [Rat.num_neg_eq_neg_num] at this
    have hceil : ⌈q⌉ = -⌊-q⌋ := by rw [Int.floor_neg, neg_neg]
    rw [hceil, Rat.floor_def, Rat.num_neg_eq_neg_num, Rat.den_neg_eq_den]
    rw [← Int.tdiv_eq_ediv hn (Int.natCast_nonneg _), Int.neg_tdiv, neg_neg]

lemma pytrunc_add_half (n : ℕ) (d : ℤ) (h0 : 0 ≤ (n : ℤ) + d) :
    pytrunc ((n : ℚ) + 1/2 + (d : ℚ) + eps) = (n : ℤ) + d := by
  have hq : (n : ℚ) + 1/2 + (d : ℚ) + eps = (((n : ℤ) + d : ℤ) : ℚ) + (1/2 + eps) := by
    push_cast; ring
  have hz : (0:ℚ) ≤ (((n : ℤ) + d : ℤ) : ℚ) := by exact_mod_cast h0
  rw [hq, pytrunc_eq, if_pos (by norm_num [eps]; linarith)]
  apply Int.floor_eq_iff.mpr
  refine ⟨by norm_num [eps], by push_cast; norm_num [eps]⟩

lemma pytrunc_add_half_neg (n : ℕ) (d : ℤ) (h0 : (n : ℤ) + d = -1) :
    pytrunc ((n : ℚ) + 1/2 + (d : ℚ) + eps) = 0 := by
  have hq : (n : ℚ) + 1/2 + (d : ℚ) + eps = (-1 : ℚ) + (1/2 + eps) := by
    have hc : ((n : ℤ) : ℚ) + (d : ℚ) = -1 := by
      have := congrArg (fun z : ℤ => (z : ℚ)) h0
      push_cast at this ⊢
      linarith
    push_cast at hc ⊢
    linarith
  rw [hq, pytrunc_eq, if_neg (by norm_num [eps])]
  apply Int.ceil_eq_iff.mpr
  constructor <;> norm_num [eps]

/-- A quarter-turn heading points along exactly one axis. -/
lemma qdir (k : ℤ) :
    (qcos k = 1 ∧ qsin k = 0) ∨ (qcos k = -1 ∧ qsin k = 0) ∨
    (qcos k = 0 ∧ qsin k = 1) ∨ (qcos k = 0 ∧ qsin k = -1) := by
  have h4 : k % 4 = 0 ∨ k % 4 = 1 ∨ k % 4 = 2 ∨ k % 4 = 3 := by omega
  unfold qcos qsin
  rcases h4 with h | h | h | h <;> simp [h]

lemma qcos_cases (k : ℤ) : qcos k = -1 ∨ qcos k = 0 ∨ qcos k = 1 := by
  rcases qdir k with ⟨h, _⟩ | ⟨h, _⟩ | ⟨h, _⟩ | ⟨h, _⟩ <;> omega

lemma qsin_cases (k : ℤ) : qsin k = -1 ∨ qsin k = 0 ∨ qsin k = 1 := by
  rcases qdir k with ⟨_, h⟩ | ⟨_, h⟩ | ⟨_, h⟩ | ⟨_, h⟩ <;> omega

lemma fwdCandX_center (cx : ℕ) (k : ℤ) (h0 : 0 ≤ (cx : ℤ) + qcos k) :
    fwdCandX ((cx : ℚ) + 1/2) k = (cx : ℤ) + qcos k :=
  pytrunc_add_half cx (qcos k) h0

lemma fwdCandY_center (cy : ℕ) (k : ℤ) (h0 : 0 ≤ (cy : ℤ) + qsin k) :
    fwdCandY ((cy : ℚ) + 1/2) k = (cy : ℤ) + qsin k :=
  pytrunc_add_half cy (qsin k) h0

lemma bwdCandX_center (cx : ℕ) (k : ℤ) (h0 : 0 ≤ (cx : ℤ) - qcos k) :
    bwdCandX ((cx : ℚ) + 1/2) k = (cx : ℤ) - qcos k := by
  have hq : (cx : ℚ) + 1/2 - (qcos k : ℚ) + eps
      = (cx : ℚ) + 1/2 + ((-qcos k : ℤ) : ℚ) + eps := by push_cast; ring
  unfold bwdCandX
  rw [hq, pytrunc_add_half cx (-qcos k) (by omega)]
  omega

lemma bwdCandY_center (cy : ℕ) (k : ℤ) (h0 : 0 ≤ (cy : ℤ) - qsin k) :
    bwdCandY ((cy : ℚ) + 1/2) k = (cy : ℤ) - qsin k := by
  have hq : (cy : ℚ) + 1/2 - (qsin k : ℚ) + eps
      = (cy : ℚ) + 1/2 + ((-qsin k : ℤ) : ℚ) + eps := by push_cast; ring
  unfold bwdCandY
  rw [hq, pytrunc_add_half cy (-qsin k) (by omega)]
  omega

lemma bwdCandX_center_neg (cx : ℕ) (k : ℤ) (h0 : (cx : ℤ) - qcos k = -1) :
    bwdCandX ((cx : ℚ) + 1/2) k = 0 := by
  have hq : (cx : ℚ) + 1/2 - (qcos k : ℚ) + eps
      = (cx : ℚ) + 1/2 + ((-qcos k : ℤ) : ℚ) + eps := by push_cast; ring
  unfold bwdCandX
  rw [hq, pytrunc_add_half_neg cx (-qcos k) (by omega)]

lemma bwdCandY_center_neg (cy : ℕ) (k : ℤ) (h0 : (cy : ℤ) - qsin k = -1) :
    bwdCandY ((cy : ℚ) + 1/2) k = 0 := by
  have hq : (cy : ℚ) + 1/2 - (qsin k : ℚ) + eps
      = (cy : ℚ) + 1/2 + ((-qsin k : ℤ) : ℚ) + eps := by push_cast; ring
  unfold bwdCandY
  rw [hq, pytrunc_add_half_neg cy (-qsin k) (by omega)]

/-- C1: for a cell-centered pose with a quarter-turn heading whose candidate
cell (one tile ahead, epsilon-rounded) is in bounds, `step_forward` moves to
the center of that cell when it holds `'.'` (exactly one tile along the
heading, heading and mode unchanged); when the candidate holds anything other
than `'.'` the position and heading are unchanged, and when it is a registered
establishment tile whose registered type is a non-empty string (a truthy
value: `step_forward` guards its return with `if et:` and the key handler
with `if entered:`) the handler signals the transition to that
establishment's interior. -/
theorem C1_step_forward_commits_or_enters
    (m : GameMap) (ests : List (Char × Est)) (s : World) (cx cy : ℕ)
    (_hrect : Rectangular m)
    (hpx : s.px = (cx : ℚ) + 1/2) (hpy : s.py = (cy : ℚ) + 1/2)
    (hbx0 : 0 ≤ (cx : ℤ) + qcos s.angle) (hbx1 : (cx : ℤ) + qcos s.angle < (MAP_W m : ℤ))
    (hby0 : 0 ≤ (cy : ℤ) + qsin s.angle) (hby1 : (cy : ℤ) + qsin s.angle < (MAP_H m : ℤ)) :
    (mapAt m ((cx : ℤ) + qcos s.angle) ((cy : ℤ) + qsin s.angle) = '.' →
        (onForwardKey m ests s).px = (cx : ℚ) + ((qcos s.angle : ℤ) : ℚ) + 1/2
      ∧ (onForwardKey m ests s).py = (cy : ℚ) + ((qsin s.angle : ℤ) : ℚ) + 1/2
      ∧ (onForwardKey m ests s).angle = s.angle
      ∧ (onForwardKey m ests s).in_est = s.in_est)
    ∧ (mapAt m ((cx : ℤ) + qcos s.angle) ((cy : ℤ) + qsin s.angle) ≠ '.' →
        (onForwardKey m ests s).px = s.px ∧ (onForwardKey m ests s).py = s.py
      ∧ (onForwardKey m ests s).angle = s.angle)
    ∧ (∀ e t, mapAt m ((cx : ℤ) + qcos s.angle) ((cy : ℤ) + qsin s.angle) ≠ '.' →
        estLookup ests (mapAt m ((cx : ℤ) + qcos s.angle) ((cy : ℤ) + qsin s.angle)).toLower
          = some e →
        e.type = some t →
        t ≠ "" →
        (onForwardKey m ests s).px = s.px ∧ (onForwardKey m ests s).py = s.py
      ∧ (onForwardKey m ests s).angle = s.angle
      ∧ (onForwardKey m ests s).in_est = some t) := by
  have hfx : fwdCandX s.px s.angle = (cx : ℤ) + qcos s.angle := by
    rw [hpx]; exact fwdCandX_center cx s.angle hbx0
  have hfy : fwdCandY s.py s.angle = (cy : ℤ) + qsin s.angle := by
    rw [hpy]; exact fwdCandY_center cy s.angle hby0
  refine ⟨?_, ?_, ?_⟩
  · intro hch
    have hs : step_forward m ests s.px s.py s.angle =
        ((((cx : ℤ) + qcos s.angle : ℤ) : ℚ) + 1/2,
         (((cy : ℤ) + qsin s.angle : ℤ) : ℚ) + 1/2, none) := by
      unfold step_forward
      rw [hfx, hfy, if_pos ⟨hbx0, hbx1, hby0, hby1⟩, if_pos hch]
    refine ⟨?_, ?_, rfl, ?_⟩
    · show (step_forward m ests s.px s.py s.angle).1 = _
      rw [hs]; push_cast; ring
    · show (step_forward m ests s.px s.py s.angle).2.1 = _
      rw [hs]; push_cast; ring
    · show (match (step_forward m ests s.px s.py s.angle).2.2 with
            | some t => if t.isEmpty then s.in_est else some t
            | none => s.in_est) = s.in_est
      rw [hs]
  · intro hch
    have hs : (step_forward m ests s.px s.py s.angle).1 = s.px ∧
        (step_forward m ests s.px s.py s.angle).2.1 = s.py := by
      unfold step_forward
      rw [hfx, hfy, if_pos ⟨hbx0, hbx1, hby0, hby1⟩, if_neg hch]
      split
      · split
        · split <;> exact ⟨rfl, rfl⟩
        · exact ⟨rfl, rfl⟩
      · exact ⟨rfl, rfl⟩
    exact ⟨hs.1, hs.2, rfl⟩
  · intro e t hch hlk ht ht0
    have hte : t.isEmpty = false := by
      cases hie : t.isEmpty
      · rfl
      · exact absurd ((String.isEmpty_iff t).mp hie) ht0
    have hee : enter_est_from_char ests
        (mapAt m ((cx : ℤ) + qcos s.angle) ((cy : ℤ) + qsin s.angle)) = some t := by
      unfold enter_est_from_char
      rw [hlk]
      exact ht
    have hs : step_forward m ests s.px s.py s.angle = (s.px, s.py, some t) := by
      unfold step_forward
      rw [hfx, hfy, if_pos ⟨hbx0, hbx1, hby0, hby1⟩, if_neg hch, hee, hlk,
        if_pos (by simp : ((some e).isSome = true))]
      dsimp only
      rw [hte]
      simp
    refine ⟨?_, ?_, rfl, ?_⟩
    · show (step_forward m ests s.px s.py s.angle).1 = s.px
      rw [hs]
    · show (step_forward m ests s.px s.py s.angle).2.1 = s.py
      rw [hs]
    · show (match (step_forward m ests s.px s.py s.angle).2.2 with
            | some t2 => if t2.isEmpty then s.in_est else some t2
            | none => s.in_est) = some t
      rw [hs]
      dsimp only
      rw [hte]
      simp

/-- Witness for C1 at a concrete map, registry and pose (stepping east into
an empty cell). -/
theorem C1_witness :
    (onForwardKey mapW1 estsW1 ⟨1/2, 1/2, 0, none⟩).px
        = ((0 : ℕ) : ℚ) + ((qcos 0 : ℤ) : ℚ) + 1/2
    ∧ (onForwardKey mapW1 estsW1 ⟨1/2, 1/2, 0, none⟩).py
        = ((0 : ℕ) : ℚ) + ((qsin 0 : ℤ) : ℚ) + 1/2
    ∧ (onForwardKey mapW1 estsW1 ⟨1/2, 1/2, 0, none⟩).angle = (⟨1/2, 1/2, 0, none⟩ : World).angle
    ∧ (onForwardKey mapW1 estsW1 ⟨1/2, 1/2, 0, none⟩).in_est
        = (⟨1/2, 1/2, 0, none⟩ : World).in_est :=
  (C1_step_forward_commits_or_enters mapW1 estsW1 ⟨1/2, 1/2, 0, none⟩ 0 0
    (by decide) (by norm_num) (by norm_num)
    (by decide) (by decide) (by decide) (by decide)).1 (by decide)

/-- C10: the backward-step key handler never changes the heading or the mode
flag; from a cell-centered pose with quarter-turn heading it either leaves the
position unchanged or moves to the center of the in-bounds cell one tile
opposite the heading when that cell holds `'.'`; and when the cell behind is
in bounds but holds anything other than `'.'` (in particular an establishment
tile) the position is unchanged. -/
theorem C10_step_backward_no_transition
    (m : GameMap) (s : World) (cx cy : ℕ)
    (_hrect : Rectangular m)
    (hpx : s.px = (cx : ℚ) + 1/2) (hpy : s.py = (cy : ℚ) + 1/2) :
    ((onBackwardKey m s).angle = s.angle ∧ (onBackwardKey m s).in_est = s.in_est)
    ∧ (((onBackwardKey m s).px = s.px ∧ (onBackwardKey m s).py = s.py)
        ∨ (0 ≤ (cx : ℤ) - qcos s.angle ∧ (cx : ℤ) - qcos s.angle < (MAP_W m : ℤ)
           ∧ 0 ≤ (cy : ℤ) - qsin s.angle ∧ (cy : ℤ) - qsin s.angle < (MAP_H m : ℤ)
           ∧ mapAt m ((cx : ℤ) - qcos s.angle) ((cy : ℤ) - qsin s.angle) = '.'
           ∧ (onBackwardKey m s).px = (cx : ℚ) - ((qcos s.angle : ℤ) : ℚ) + 1/2
           ∧ (onBackwardKey m s).py = (cy : ℚ) - ((qsin s.angle : ℤ) : ℚ) + 1/2))
    ∧ (0 ≤ (cx : ℤ) - qcos s.angle → (cx : ℤ) - qcos s.angle < (MAP_W m : ℤ) →
        0 ≤ (cy : ℤ) - qsin s.angle → (cy : ℤ) - qsin s.angle < (MAP_H m : ℤ) →
        mapAt m ((cx : ℤ) - qcos s.angle) ((cy : ℤ) - qsin s.angle) ≠ '.' →
        (onBackwardKey m s).px = s.px ∧ (onBackwardKey m s).py = s.py) := by
  refine ⟨⟨rfl, rfl⟩, ?_, ?_⟩
  · rcases le_or_lt 0 ((cx : ℤ) - qcos s.angle) with hx0 | hx0
    · rcases le_or_lt 0 ((cy : ℤ) - qsin s.angle) with hy0 | hy0
      · by_cases hbw : ((cx : ℤ) - qcos s.angle < (MAP_W m : ℤ))
            ∧ ((cy : ℤ) - qsin s.angle < (MAP_H m : ℤ))
        · by_cases hch : mapAt m ((cx : ℤ) - qcos s.angle) ((cy : ℤ) - qsin s.angle) = '.'
          · right
            refine ⟨hx0, hbw.1, hy0, hbw.2, hch, ?_, ?_⟩
            · show (step_backward m s.px s.py s.angle).1 = _
              rw [hpx, hpy]
              unfold step_backward
              rw [bwdCandX_center cx _ hx0, bwdCandY_center cy _ hy0,
                if_pos ⟨hx0, hbw.1, hy0, hbw.2⟩, if_pos hch]
              push_cast; ring
            · show (step_backward m s.px s.py s.angle).2 = _
              rw [hpx, hpy]
              unfold step_backward
              rw [bwdCandX_center cx _ hx0, bwdCandY_center cy _ hy0,
                if_pos ⟨hx0, hbw.1, hy0, hbw.2⟩, if_pos hch]
              push_cast; ring
          · left
            constructor
            · show (step_backward m s.px s.py s.angle).1 = s.px
              rw [hpx, hpy]
              unfold step_backward
              rw [bwdCandX_center cx _ hx0, bwdCandY_center cy _ hy0,
                if_pos ⟨hx0, hbw.1, hy0, hbw.2⟩, if_neg hch]
            · show (step_backward m s.px s.py s.angle).2 = s.py
              rw [hpx, hpy]
              unfold step_backward
              rw [bwdCandX_center cx _ hx0, bwdCandY_center cy _ hy0,
                if_pos ⟨hx0, hbw.1, hy0, hbw.2⟩, if_neg hch]
        · left
          constructor
          · show (step_backward m s.px s.py s.angle).1 = s.px
            rw [hpx, hpy]
            unfold step_backward
            rw [bwdCandX_center cx _ hx0, bwdCandY_center cy _ hy0,
              if_neg (fun hc => hbw ⟨hc.2.1, hc.2.2.2⟩)]
          · show (step_backward m s.px s.py s.angle).2 = s.py
            rw [hpx, hpy]
            unfold step_backward
            rw [bwdCandX_center cx _ hx0, bwdCandY_center cy _ hy0,
              if_neg (fun hc => hbw ⟨hc.2.1, hc.2.2.2⟩)]
      · -- the cell behind is below the map's top edge: the truncated
        -- candidate is the player's own cell and the position cannot change
        left
        have hs1 : qsin s.angle = 1 := by
          rcases qsin_cases s.angle with h | h | h <;> omega
        have hc0 : qcos s.angle = 0 := by
          rcases qdir s.angle with ⟨h1, h2⟩ | ⟨h1, h2⟩ | ⟨h1, h2⟩ | ⟨h1, h2⟩ <;> omega
        have hcy : cy = 0 := by omega
        have hbx := bwdCandX_center cx s.angle (by omega)
        have hby := bwdCandY_center_neg cy s.angle (by omega)
        constructor
        · show (step_backward m s.px s.py s.angle).1 = s.px
          rw [hpx, hpy]
          unfold step_backward
          rw [hbx, hby]
          split
          · split
            · rw [hc0]; push_cast; ring
            · rfl
          · rfl
        · show (step_backward m s.px s.py s.angle).2 = s.py
          rw [hpx, hpy]
          unfold step_backward
          rw [hbx, hby]
          split
          · split
            · rw [hcy]; norm_num
            · rfl
          · rfl
    · -- the cell behind is left of the map's left edge: same situation
      left
      have hc1 : qcos s.angle = 1 := by
        rcases qcos_cases s.angle with h | h | h <;> omega
      have hs0 : qsin s.angle = 0 := by
        rcases qdir s.angle with ⟨h1, h2⟩ | ⟨h1, h2⟩ | ⟨h1, h2⟩ | ⟨h1, h2⟩ <;> omega
      have hcx : cx = 0 := by omega
      have hbx := bwdCandX_center_neg cx s.angle (by omega)
      have hby := bwdCandY_center cy s.angle (by omega)
      constructor
      · show (step_backward m s.px s.py s.angle).1 = s.px
        rw [hpx, hpy]
        unfold step_backward
        rw [hbx, hby]
        split
        · split
          · rw [hcx]; norm_num
          · rfl
        · rfl
      · show (step_backward m s.px s.py s.angle).2 = s.py
        rw [hpx, hpy]
        unfold step_backward
        rw [hbx, hby]
        split
        · split
          · rw [hs0]; push_cast; ring
          · rfl
        · rfl
  · intro hx0 hxW hy0 hyH hch
    constructor
    · show (step_backward m s.px s.py s.angle).1 = s.px
      rw [hpx, hpy]
      unfold step_backward
      rw [bwdCandX_center cx _ hx0, bwdCandY_center cy _ hy0,
        if_pos ⟨hx0, hxW, hy0, hyH⟩, if_neg hch]
    · show (step_backward m s.px s.py s.angle).2 = s.py
      rw [hpx, hpy]
      unfold step_backward
      rw [bwdCandX_center cx _ hx0, bwdCandY_center cy _ hy0,
        if_pos ⟨hx0, hxW, hy0, hyH⟩, if_neg hch]

/-- Witness for C10 at a concrete map and pose: on the one-row map `".t."`,
with the player facing east at the center of cell 2, the tile behind is the
establishment tile `'t'`, so the backward step leaves the position unchanged. -/
theorem C10_witness :
    (onBackwardKey (GameMap.mk [['.', 't', '.']]) ⟨5/2, 1/2, 0, none⟩).px
        = (⟨5/2, 1/2, 0, none⟩ : World).px
    ∧ (onBackwardKey (GameMap.mk [['.', 't', '.']]) ⟨5/2, 1/2, 0, none⟩).py
        = (⟨5/2, 1/2, 0, none⟩ : World).py :=
  (C10_step_backward_no_transition (GameMap.mk [['.', 't', '.']]) ⟨5/2, 1/2, 0, none⟩ 2 0
    (by decide) (by norm_num) (by norm_num)).2.2
    (by decide) (by decide) (by decide) (by decide) (by decide)

/-! ### Raycasting theorems -/

/-- `ratFloor` is the floor. -/
lemma ratFloor_eq (q : ℚ) : ratFloor q = ⌊q⌋ := Rat.floor_def.symm

/-- Round-half-even never falls below the floor. -/
lemma roundHalfEven_ge_floor (x : ℚ) : ⌊x⌋ ≤ roundHalfEven x := by
  unfold roundHalfEven
  rw [ratFloor_eq]
  split
  · exact le_refl _
  · split
    · omega
    · split <;> omega

/-- The fuel-driven base-2 logarithm brackets its argument between
consecutive powers of two whenever the fuel is sufficient. -/
lemma natLog2Go_bounds : ∀ (fuel n : ℕ), n ≤ fuel → 1 ≤ n →
    2 ^ natLog2Go fuel n ≤ n ∧ n < 2 ^ (natLog2Go fuel n + 1) := by
  intro fuel
  induction fuel with
  | zero => intro n h1 h2; omega
  | succ fuel ih =>
    intro n h1 h2
    simp only [natLog2Go]
    by_cases h : 2 ≤ n
    · rw [if_pos h]
      obtain ⟨ha, hb⟩ := ih (n / 2) (by omega) (by omega)
      have e1 : (2:ℕ) ^ (natLog2Go fuel (n / 2) + 1) = 2 ^ natLog2Go fuel (n / 2) * 2 :=
        pow_succ 2 _
      have e2 : (2:ℕ) ^ (natLog2Go fuel (n / 2) + 1 + 1)
          = 2 ^ (natLog2Go fuel (n / 2) + 1) * 2 := pow_succ 2 _
      omega
    · rw [if_neg h]
      have hn2 : n < 2 := by omega
      exact ⟨by simpa using h2, by simpa using hn2⟩

/-- `2 ^ natLog2 n ≤ n` for `n ≠ 0`. -/
lemma natLog2_le (n : ℕ) (h : n ≠ 0) : 2 ^ natLog2 n ≤ n :=
  (natLog2Go_bounds n n le_rfl (by omega)).1

/-- `n < 2 ^ (natLog2 n + 1)`. -/
lemma natLog2_gt (n : ℕ) : n < 2 ^ (natLog2 n + 1) := by
  rcases Nat.eq_zero_or_pos n with h | h
  · subst h; decide
  · exact (natLog2Go_bounds n n le_rfl h).2

/-- The integer cross-multiplication test decides `q < 2 ^ c`. -/
lemma qLtTwoPow_iff (q : ℚ) (c : ℤ) : qLtTwoPow q c = true ↔ q < (2 : ℚ) ^ c := by
  have hden : (0 : ℚ) < (q.den : ℚ) := by exact_mod_cast q.den_pos
  rcases le_or_lt 0 c with hc | hc
  · obtain ⟨k, rfl⟩ : ∃ k : ℕ, c = (k : ℤ) := ⟨c.toNat, (Int.toNat_of_nonneg hc).symm⟩
    unfold qLtTwoPow
    rw [if_pos (by omega : (0:ℤ) ≤ (k : ℤ)), Int.toNat_natCast, zpow_natCast,
      decide_eq_true_iff]
    have key : q < (2 : ℚ) ^ k ↔ (q.num : ℚ) < (2 : ℚ) ^ k * (q.den : ℚ) := by
      conv_lhs => rw [← Rat.num_div_den q]
      exact div_lt_iff₀ hden
    rw [key]
    constructor
    · intro h; exact_mod_cast h
    · intro h; exact_mod_cast h
  · obtain ⟨k, rfl⟩ : ∃ k : ℕ, c = -(k : ℤ) := ⟨(-c).toNat, by omega⟩
    unfold qLtTwoPow
    rw [if_neg (by omega), neg_neg, Int.toNat_natCast, decide_eq_true_iff,
      zpow_neg, zpow_natCast]
    have hSpos : (0:ℚ) < (2 : ℚ) ^ k := by positivity
    have key : q < ((2 : ℚ) ^ k)⁻¹ ↔ (q.num : ℚ) * (2 : ℚ) ^ k < (q.den : ℚ) := by
      rw [inv_eq_one_div, lt_div_iff₀ hSpos]
      conv_lhs => rw [← Rat.num_div_den q]
      rw [div_mul_eq_mul_div, div_lt_iff₀ hden, one_mul]
    rw [key]
    constructor
    · intro h; exact_mod_cast h
    · intro h; exact_mod_cast h

/-- `2 ^ ilog2q q ≤ q` for positive `q`. -/
lemma two_zpow_ilog2q_le (q : ℚ) (hq : 0 < q) : (2 : ℚ) ^ ilog2q q ≤ q := by
  have hnum : (0 : ℤ) < q.num := Rat.num_pos.mpr hq
  have habs : ((q.num.natAbs : ℤ)) = q.num := Int.natAbs_of_nonneg (le_of_lt hnum)
  unfold ilog2q
  split
  · next hlt =>
    have hnum0 : q.num.natAbs ≠ 0 := by omega
    have hn : (2 : ℕ) ^ natLog2 q.num.natAbs ≤ q.num.natAbs := natLog2_le _ hnum0
    have hd : q.den < 2 ^ (natLog2 q.den + 1) := natLog2_gt _
    have hsplit : (2 : ℚ) ^ ((natLog2 q.num.natAbs : ℤ) - (natLog2 q.den : ℤ) - 1)
        = (2 : ℚ) ^ ((natLog2 q.num.natAbs : ℕ) : ℤ)
          / (2 : ℚ) ^ (((natLog2 q.den + 1 : ℕ)) : ℤ) := by
      rw [← zpow_sub₀ (by norm_num : (2 : ℚ) ≠ 0)]
      congr 1
      push_cast
      ring
    rw [hsplit]
    conv_rhs => rw [← Rat.num_div_den q]
    apply div_le_div₀
    · exact_mod_cast le_of_lt hnum
    · rw [zpow_natCast]
      have hZ : (2:ℤ) ^ natLog2 q.num.natAbs ≤ q.num := by
        calc (2:ℤ) ^ natLog2 q.num.natAbs
            = ((2 ^ natLog2 q.num.natAbs : ℕ) : ℤ) := by push_cast; rfl
          _ ≤ (q.num.natAbs : ℤ) := by exact_mod_cast hn
          _ = q.num := habs
      exact_mod_cast hZ
    · exact_mod_cast q.den_pos
    · rw [zpow_natCast]
      calc (q.den : ℚ) ≤ ((2 ^ (natLog2 q.den + 1) : ℕ) : ℚ) := by exact_mod_cast le_of_lt hd
        _ = (2 : ℚ) ^ (natLog2 q.den + 1) := by push_cast; rfl
  · next hlt =>
    refine le_of_not_lt (fun hlt2 => hlt ?_)
    exact (qLtTwoPow_iff q _).mpr hlt2

/-- Binary64 rounding keeps positive inputs positive. -/
lemma roundDouble_pos (q : ℚ) (hq : 0 < q) : 0 < roundDouble q := by
  unfold roundDouble
  rw [if_neg (not_le.mpr hq)]
  have h2e := two_zpow_ilog2q_le q hq
  split
  · next he =>
    have hSpos : (0 : ℚ) < ((2 ^ (52 - ilog2q q).toNat : ℕ) : ℚ) := by positivity
    apply div_pos _ hSpos
    have hS : ((2 ^ (52 - ilog2q q).toNat : ℕ) : ℚ) = (2 : ℚ) ^ ((52 : ℤ) - ilog2q q) := by
      push_cast
      rw [← zpow_natCast (2 : ℚ) (52 - ilog2q q).toNat, Int.toNat_of_nonneg (by omega)]
    have h1 : (1 : ℚ) ≤ q * ((2 ^ (52 - ilog2q q).toNat : ℕ) : ℚ) := by
      rw [hS]
      have hmul : (2 : ℚ) ^ (ilog2q q) * (2 : ℚ) ^ ((52 : ℤ) - ilog2q q)
          = (2 : ℚ) ^ ((52 : ℤ)) := by
        rw [← zpow_add₀ (by norm_num : (2 : ℚ) ≠ 0)]
        congr 1
        ring
      have h52 : (1 : ℚ) ≤ (2 : ℚ) ^ ((52 : ℤ)) := by
        rw [show ((52 : ℤ)) = (((52 : ℕ)) : ℤ) from rfl, zpow_natCast]
        norm_num
      calc (1 : ℚ) ≤ (2 : ℚ) ^ ((52 : ℤ)) := h52
        _ = (2 : ℚ) ^ (ilog2q q) * (2 : ℚ) ^ ((52 : ℤ) - ilog2q q) := hmul.symm
        _ ≤ q * (2 : ℚ) ^ ((52 : ℤ) - ilog2q q) :=
            mul_le_mul_of_nonneg_right h2e (by positivity)
    have hfl : (1 : ℤ) ≤ ⌊q * ((2 ^ (52 - ilog2q q).toNat : ℕ) : ℚ)⌋ :=
      Int.le_floor.mpr (by exact_mod_cast h1)
    have hrh := roundHalfEven_ge_floor (q * ((2 ^ (52 - ilog2q q).toNat : ℕ) : ℚ))
    exact_mod_cast lt_of_lt_of_le (by norm_num : (0 : ℤ) < 1) (le_trans hfl hrh)
  · next he =>
    have hTpos : (0 : ℚ) < ((2 ^ (ilog2q q - 52).toNat : ℕ) : ℚ) := by positivity
    apply mul_pos _ hTpos
    have hT : ((2 ^ (ilog2q q - 52).toNat : ℕ) : ℚ) = (2 : ℚ) ^ (ilog2q q - 52) := by
      push_cast
      rw [← zpow_natCast (2 : ℚ) (ilog2q q - 52).toNat, Int.toNat_of_nonneg (by omega)]
    have h1 : (1 : ℚ) ≤ q / ((2 ^ (ilog2q q - 52).toNat : ℕ) : ℚ) := by
      rw [hT, le_div_iff₀ (by positivity), one_mul]
      calc (2 : ℚ) ^ (ilog2q q - 52) ≤ (2 : ℚ) ^ (ilog2q q) :=
            zpow_le_zpow_right₀ (by norm_num) (by omega)
        _ ≤ q := h2e
    have hfl : (1 : ℤ) ≤ ⌊q / ((2 ^ (ilog2q q - 52).toNat : ℕ) : ℚ)⌋ :=
      Int.le_floor.mpr (by exact_mod_cast h1)
    have hrh := roundHalfEven_ge_floor (q / ((2 ^ (ilog2q q - 52).toNat : ℕ) : ℚ))
    exact_mod_cast lt_of_lt_of_le (by norm_num : (0 : ℤ) < 1) (le_trans hfl hrh)

/-- The march never reports a nonpositive depth when started from a positive
accumulated depth. -/
lemma marchAux_pos (m : GameMap) (px py cosA sinA : ℚ) :
    ∀ (fuel : ℕ) (d : ℚ), 0 < d → 0 < (marchAux m px py cosA sinA d fuel).1 := by
  intro fuel
  induction fuel with
  | zero => intro d hd; simpa [marchAux] using hd
  | succ f ih =>
    intro d hd
    have hc005 : (0 : ℚ) < c005 := by norm_num [c005]
    have hd1 : 0 < roundDouble (d + c005) := roundDouble_pos _ (by linarith)
    simp only [marchAux]
    split
    · split
      · simpa using hd1
      · split
        · simpa using hd1
        · exact ih _ hd1
    · simpa using hd

/-- The reported depth of a ray is the depth reached by the march loop. -/
lemma cast_ray_fst (m : GameMap) (px py cosA sinA : ℚ) :
    (cast_ray m px py cosA sinA).1 = (marchAux m px py cosA sinA 0 802).1 := by
  unfold cast_ray
  rcases marchAux m px py cosA sinA 0 802 with ⟨d, _ | c, hx, hy⟩ <;> rfl

/-- The marched depth of a ray is strictly positive (the loop always runs at
least one `+= 0.05` increment). -/
lemma cast_ray_depth_pos (m : GameMap) (px py cosA sinA : ℚ) :
    0 < (cast_ray m px py cosA sinA).1 := by
  rw [cast_ray_fst]
  show 0 < (marchAux m px py cosA sinA 0 (801 + 1)).1
  rw [marchAux]
  rw [if_pos (by norm_num [MAX_DEPTH] : (0 : ℚ) < MAX_DEPTH)]
  have hd1 : 0 < roundDouble ((0 : ℚ) + c005) := roundDouble_pos _ (by norm_num [c005])
  split
  · simpa using hd1
  · split
    · simpa using hd1
    · exact marchAux_pos m px py cosA sinA 801 _ hd1

/-- If the loop guard passes before each of `n` increments, fails after the
last one, and every sample point along the chain is clear, the march runs all
`n` iterations and reports the final accumulated depth with no hit. -/
lemma marchAux_clear (m : GameMap) (px py cosA sinA : ℚ) :
    ∀ (n : ℕ) (d : ℚ) (fuel : ℕ), n ≤ fuel →
      floatDepthChainOk n d = true →
      clearChain m px py cosA sinA n d = true →
      marchAux m px py cosA sinA d fuel = (floatDepthFrom n d, none, 0, 0) := by
  intro n
  induction n with
  | zero =>
    intro d fuel _ hok _
    simp only [floatDepthChainOk, decide_eq_true_eq] at hok
    cases fuel with
    | zero => simp [marchAux, floatDepthFrom]
    | succ f => simp [marchAux, floatDepthFrom, hok]
  | succ n ih =>
    intro d fuel hnf hok hcl
    cases fuel with
    | zero => omega
    | succ f =>
      simp only [floatDepthChainOk, Bool.and_eq_true, decide_eq_true_eq] at hok
      obtain ⟨hlt, hok2⟩ := hok
      simp only [clearChain, Bool.and_eq_true] at hcl
      obtain ⟨hat, hcl2⟩ := hcl
      simp only [sampleClearAt, Bool.and_eq_true, decide_eq_true_eq] at hat
      obtain ⟨⟨⟨⟨h1, h2⟩, h3⟩, h4⟩, h5⟩ := hat
      simp only [marchAux]
      rw [if_pos hlt]
      rw [if_neg (by intro hoob; rcases hoob with h | h | h | h <;> omega)]
      rw [if_neg (by simp [h5])]
      rw [ih (roundDouble (d + c005)) f (by omega) hok2 hcl2]
      rfl

/-- A verified chain step certifies the rounded increment. -/
lemma stepOk_eq {a b : ℚ} (h : stepOk a b = true) : roundDouble (a + c005) = b := by
  simp only [stepOk, Bool.and_eq_true, beq_iff_eq] at h
  exact Rat.ext h.1 h.2

/-- A verified chain replay certifies the loop-guard trace. -/
lemma chainCheck_chainOk : ∀ (l : List ℚ) (a : ℚ), chainCheck a l = true →
    floatDepthChainOk l.length a = true := by
  intro l
  induction l with
  | nil =>
    intro a h
    simp only [chainCheck] at h
    simpa [floatDepthChainOk] using h
  | cons b t ih =>
    intro a h
    simp only [chainCheck, Bool.and_eq_true] at h
    obtain ⟨⟨hg, hs⟩, hc⟩ := h
    show floatDepthChainOk (t.length + 1) a = true
    simp only [floatDepthChainOk, Bool.and_eq_true]
    exact ⟨hg, by rw [stepOk_eq hs]; exact ih b hc⟩

/-- A verified chain replay certifies the accumulated depth. -/
lemma chainCheck_depth : ∀ (l : List ℚ) (a : ℚ), chainCheck a l = true →
    floatDepthFrom l.length a = lastD a l := by
  intro l
  induction l with
  | nil => intro a _; rfl
  | cons b t ih =>
    intro a h
    simp only [chainCheck, Bool.and_eq_true] at h
    obtain ⟨⟨_, hs⟩, hc⟩ := h
    show floatDepthFrom (t.length + 1) a = lastD a (b :: t)
    have h1 : floatDepthFrom (t.length + 1) a
        = floatDepthFrom t.length (roundDouble (a + c005)) := rfl
    have h2 : lastD a (b :: t) = lastD b t := rfl
    rw [h1, stepOk_eq hs, h2]
    exact ih b hc

/-- A verified chain replay with clearance along the listed depths certifies
clearance of the recomputed chain. -/
lemma chainCheck_clear (m : GameMap) (px py cosA sinA : ℚ) :
    ∀ (l : List ℚ) (a : ℚ), chainCheck a l = true →
      clearAlong m px py cosA sinA l = true →
      clearChain m px py cosA sinA l.length a = true := by
  intro l
  induction l with
  | nil => intro a _ _; rfl
  | cons b t ih =>
    intro a h hcl
    simp only [chainCheck, Bool.and_eq_true] at h
    obtain ⟨⟨_, hs⟩, hc⟩ := h
    simp only [clearAlong, Bool.and_eq_true] at hcl
    obtain ⟨h1, h2⟩ := hcl
    show clearChain m px py cosA sinA (t.length + 1) a = true
    simp only [clearChain, Bool.and_eq_true]
    rw [stepOk_eq hs]
    exact ⟨h1, ih b hc h2⟩

set_option maxRecDepth 1000000 in
set_option maxHeartbeats 4000000 in
/-- The embedded chain of accumulator values replays correctly: every step is
the binary64 rounding of the previous value plus `0.05`, the loop guard holds
before each of the 801 steps and fails after the last. -/
lemma depthChain_check : chainCheck 0 depthChain = true := by with_unfolding_all decide

set_option maxRecDepth 1000000 in
set_option maxHeartbeats 4000000 in
/-- The chain has 801 steps. -/
lemma depthChain_length : depthChain.length = 801 := by with_unfolding_all decide

set_option maxRecDepth 1000000 in
set_option maxHeartbeats 4000000 in
/-- The final accumulator value, exactly. -/
lemma depthChain_last : lastD 0 depthChain = 5636536408630867 / 140737488355328 :=
  Rat.ext (by with_unfolding_all decide) (by with_unfolding_all decide)

/-- The accumulated binary64 depth after the 801 increments of the march. -/
lemma floatDepth_801_eq : floatDepth 801 = 5636536408630867 / 140737488355328 := by
  have h := chainCheck_depth depthChain 0 depthChain_check
  rw [depthChain_length] at h
  rw [floatDepth, h, depthChain_last]

/-- The accumulated depth after 801 increments exceeds `MAX_DEPTH`. -/
lemma floatDepth_801_gt : MAX_DEPTH < floatDepth 801 := by
  rw [floatDepth_801_eq]
  show (40 : ℚ) < _
  norm_num

/-- The overshoot is below one tenth. -/
lemma floatDepth_801_lt : floatDepth 801 < MAX_DEPTH + 1/10 := by
  rw [floatDepth_801_eq]
  show _ < (40 : ℚ) + 1/10
  norm_num

/-- The `cast_rays` loop guard first fails after 801 increments. -/
lemma chainOk_801 : floatDepthChainOk 801 (0 : ℚ) = true := by
  have h := chainCheck_chainOk depthChain 0 depthChain_check
  rwa [depthChain_length] at h

set_option maxRecDepth 1000000 in
set_option maxHeartbeats 4000000 in
/-- Every sample point of the eastward ray from `(0.5, 0.5)` on the long
empty map is clear. -/
lemma mapLong_clear : clearAlong mapLong (1/2) (1/2) 1 0 depthChain = true := by
  with_unfolding_all decide

/-- The recomputed 801-step chain of the eastward ray on the long empty map
is clear. -/
lemma mapLong_clearChain : clearChain mapLong (1/2) (1/2) 1 0 801 0 = true := by
  have h := chainCheck_clear mapLong (1/2) (1/2) 1 0 depthChain 0 depthChain_check mapLong_clear
  rwa [depthChain_length] at h

/-- C3 counterexample: on a 1-by-41 all-empty map, the ray cast east from the
cell center `(0.5, 0.5)` exhausts the march while staying inside the map
bounds; the reported depth is the accumulated float depth `floatDepth 801`,
which is strictly greater than `MAX_DEPTH` (the loop's 801st iteration), and
the recorded tile identity of the synthetic hit is the empty-tile symbol
`'.'`, not the generic wall symbol `'#'` that the claim asserts. -/
theorem C3_counterexample :
    (cast_ray mapLong (1/2) (1/2) 1 0).1 = floatDepth 801
    ∧ MAX_DEPTH < (cast_ray mapLong (1/2) (1/2) 1 0).1
    ∧ (cast_ray mapLong (1/2) (1/2) 1 0).2.1 = '.'
    ∧ (cast_ray mapLong (1/2) (1/2) 1 0).2.1 ≠ '#' := by
  have h := marchAux_clear mapLong (1/2) (1/2) 1 0 801 0 802 (by omega) chainOk_801
    mapLong_clearChain
  have h2 : cast_ray mapLong (1/2) (1/2) 1 0 = (floatDepth 801, '.', 0, 0) := by
    unfold cast_ray floatDepth
    rw [h]
  have h3 : (cast_ray mapLong (1/2) (1/2) 1 0).1 = floatDepth 801 := by rw [h2]
  refine ⟨h3, ?_, by rw [h2], by rw [h2]; decide⟩
  rw [h3]
  exact floatDepth_801_gt

/-- C3 (amended): a ray whose 801 chain samples all stay inside the map
bounds on empty cells is reported as a synthetic hit, not an error: the
accumulated double is still below `MAX_DEPTH` after 800 increments, so the
march runs an 801st iteration and reports the final accumulated depth
`floatDepth 801`, which overshoots `MAX_DEPTH` by less than `0.1`; the
recorded tile identity is the empty-tile symbol `'.'` (unlike the `'#'`
recorded when a ray exits the map bounds), which the texture selector
nevertheless maps to the same generic stone-wall texture as `'#'`. -/
theorem C3_max_depth_synthetic_hit (m : GameMap) (px py cosA sinA : ℚ)
    (hcl : clearChain m px py cosA sinA 801 0 = true) :
    cast_ray m px py cosA sinA = (floatDepth 801, '.', 0, 0)
    ∧ MAX_DEPTH < floatDepth 801
    ∧ floatDepth 801 < MAX_DEPTH + 1/10
    ∧ get_texture_for (cast_ray m px py cosA sinA).2.1 = get_texture_for '#' := by
  have h := marchAux_clear m px py cosA sinA 801 0 802 (by omega) chainOk_801 hcl
  have h2 : cast_ray m px py cosA sinA = (floatDepth 801, '.', 0, 0) := by
    unfold cast_ray floatDepth
    rw [h]
  exact ⟨h2, floatDepth_801_gt, floatDepth_801_lt, by rw [h2]; decide⟩

/-- Witness for the amended C3 on the concrete 1-by-41 all-empty map. -/
theorem C3_witness :
    cast_ray mapLong (1/2) (1/2) 1 0 = (floatDepth 801, '.', 0, 0)
    ∧ MAX_DEPTH < floatDepth 801
    ∧ floatDepth 801 < MAX_DEPTH + 1/10
    ∧ get_texture_for (cast_ray mapLong (1/2) (1/2) 1 0).2.1 = get_texture_for '#' :=
  C3_max_depth_synthetic_hit mapLong (1/2) (1/2) 1 0 mapLong_clearChain

/-- C4: the projected column height of every ray sample is obtained by
applying `proj_height` to the sample's corrected depth; `proj_height` never
exceeds `RES_Y * 2` and is non-increasing on positive corrected depths. -/
theorem C4_proj_height_antitone_and_clamped :
    (∀ dc : ℚ, proj_height dc ≤ (RES_Y : ℤ) * 2)
    ∧ (∀ d1 d2 : ℚ, 0 < d1 → d1 ≤ d2 → proj_height d2 ≤ proj_height d1)
    ∧ (∀ (m : GameMap) (px py cosA sinA cosDiff : ℚ) (r : ℕ),
        (mkRaySample m px py cosA sinA cosDiff r).proj_h
          = proj_height (mkRaySample m px py cosA sinA cosDiff r).depth) := by
  refine ⟨fun dc => min_le_right _ _, ?_, fun m px py cosA sinA cosDiff r => rfl⟩
  intro d1 d2 h1 h12
  have h2 : 0 < d2 := lt_of_lt_of_le h1 h12
  have hnum : (0 : ℚ) < (TILE : ℚ) * (RES_Y : ℚ) := by norm_num [TILE, RES_Y]
  have hdiv : (TILE : ℚ) * (RES_Y : ℚ) / (d2 * 160) ≤ (TILE : ℚ) * (RES_Y : ℚ) / (d1 * 160) :=
    div_le_div_of_nonneg_left (le_of_lt hnum) (mul_pos h1 (by norm_num))
      (mul_le_mul_of_nonneg_right h12 (by norm_num))
  have ha : (0 : ℚ) ≤ (TILE : ℚ) * (RES_Y : ℚ) / (d2 * 160) :=
    div_nonneg hnum.le (le_of_lt (mul_pos h2 (by norm_num)))
  have hb : (0 : ℚ) ≤ (TILE : ℚ) * (RES_Y : ℚ) / (d1 * 160) :=
    div_nonneg hnum.le (le_of_lt (mul_pos h1 (by norm_num)))
  unfold proj_height
  apply min_le_min _ le_rfl
  rw [pytrunc_eq, pytrunc_eq, if_pos ha, if_pos hb]
  exact Int.floor_le_floor hdiv

/-- Witness for C4 at concrete corrected depths 1 and 2. -/
theorem C4_witness : (0 : ℚ) < 1 ∧ (1 : ℚ) ≤ 2 ∧ proj_height 2 ≤ proj_height 1 :=
  ⟨by norm_num, by norm_num,
    C4_proj_height_antitone_and_clamped.2.1 1 2 (by norm_num) (by norm_num)⟩

/-- C5: the corrected depth stored in every ray sample is strictly positive
(the `0.0001` epsilon floor replaces any non-positive corrected depth before
it is used as the projection divisor), for every pose, ray direction and
fish-eye factor. -/
theorem C5_corrected_depth_pos (m : GameMap) (px py cosA sinA cosDiff : ℚ) (r : ℕ) :
    0 < (mkRaySample m px py cosA sinA cosDiff r).depth
    ∧ (mkRaySample m px py cosA sinA cosDiff r).proj_h
        = proj_height (mkRaySample m px py cosA sinA cosDiff r).depth := by
  refine ⟨?_, rfl⟩
  show 0 < corrDepth (cast_ray m px py cosA sinA).1 cosDiff
  unfold corrDepth
  split
  · norm_num
  · next h => exact not_le.mp h

/-- C6: the ray at the exact center of the fan (index `NUM_RAYS / 2 = 80`)
has ray angle equal to the heading (its angle offset from `pa` is zero in
exact `π/320` units), so its fish-eye factor is `cos 0 = 1` and the corrected
depth stored in its sample equals the uncorrected marched depth. -/
theorem C6_center_ray_uncorrected :
    rayAngleOffset (NUM_RAYS / 2) = 0
    ∧ ∀ (m : GameMap) (px py cosA sinA : ℚ),
        (mkRaySample m px py cosA sinA 1 (NUM_RAYS / 2)).depth
          = (cast_ray m px py cosA sinA).1 := by
  refine ⟨by decide, ?_⟩
  intro m px py cosA sinA
  show corrDepth (cast_ray m px py cosA sinA).1 1 = _
  have hpos := cast_ray_depth_pos m px py cosA sinA
  rw [corrDepth, mul_one, if_neg (not_le.mpr hpos)]

/-! ### Player stats and interior menu theorems -/

/-- Reading back the key just written by the dict assignment. -/
lemma dictGet_dictSet (d : List (String × ℤ)) (key : String) (v : ℤ) :
    dictGet (dictSet d key v) key = v := by
  induction d with
  | nil => simp [dictGet, dictSet, List.find?]
  | cons p rest ih =>
    rcases p with ⟨k0, v0⟩
    by_cases hp : k0 = key
    · subst hp
      simp [dictGet, dictSet, List.find?]
    · simp only [dictSet, if_neg hp]
      have hb : (k0 == key) = false := beq_eq_false_iff_ne.mpr hp
      simpa [dictGet, List.find?, hb] using ih

/-- C8: for every stats record, stat key and delta (including large negative
deltas), `modify_stat` stores `max(0, old + delta)` under the key, so the
resulting value is never negative; in particular modifying a stat at 50 by
-999 yields 0. -/
theorem C8_modify_stat_never_negative :
    (∀ (stats : List (String × ℤ)) (key : String) (delta : ℤ),
        dictGet (modify_stat stats key delta) key = max 0 (dictGet stats key + delta)
        ∧ 0 ≤ dictGet (modify_stat stats key delta) key)
    ∧ dictGet (modify_stat [("health", 50)] "health" (-999)) "health" = 0 := by
  constructor
  · intro stats key delta
    constructor
    · exact dictGet_dictSet stats key _
    · rw [modify_stat, dictGet_dictSet]
      exact le_max_left _ _
  · decide

/-- C9 counterexample: with the registry whose tavern raw menu is
`["Drink Ale", "Exit"]`, the menu presented to the player has length 1 (the
`"Exit"` item is filtered out by `draw_interior`), so index 1 is out of range
as presented — yet `apply_est_action` accepts it against the raw menu and
returns the message `"You chose: Exit"` instead of ignoring it silently. -/
theorem C9_counterexample :
    (draw_interior_menu estsW2 "tavern").length = 1
    ∧ (apply_est_action estsW2 "tavern" 1 [("gold", 50)]).1 = some "You chose: Exit" := by
  decide

/-- C9 (amended): a menu selection index that is out of range for the
establishment's raw registered menu (the list before the presentation-time
Exit/Esc filtering) — or any index when no menu is registered for the type or
the registered menu is empty — is silently ignored: `apply_est_action`
returns no message and leaves the player stats unchanged. -/
theorem C9_out_of_range_raw_ignored (ests : List (Char × Est)) (est_type : String)
    (idx : ℤ) (player : List (String × ℤ))
    (h : raw_idx_ok ests est_type idx = false) :
    apply_est_action ests est_type idx player = (none, player) := by
  unfold raw_idx_ok at h
  unfold apply_est_action
  cases hf : findMenu ests est_type with
  | none => rfl
  | some menu =>
    rw [hf] at h
    dsimp only at h
    have hcond : (menu.isEmpty = true) ∨ idx < 0 ∨ (menu.length : ℤ) ≤ idx := by
      by_contra hcon
      push_neg at hcon
      obtain ⟨h1, h2, h3⟩ := hcon
      have h1e : menu.isEmpty = false := by
        cases hie : menu.isEmpty
        · rfl
        · exact absurd hie h1
      rw [h1e] at h
      simp [h2, h3] at h
    dsimp only
    rw [if_pos hcond]

/-- Witness for the amended C9 at a concrete registry, index 5 and stats. -/
theorem C9_witness :
    apply_est_action estsW2 "tavern" 5 [("gold", 50)] = (none, [("gold", 50)]) :=
  C9_out_of_range_raw_ignored estsW2 "tavern" 5 [("gold", 50)] (by decide)

/-! ### Label placement and sky/floor theorems -/

/-- C2: the nearest-hit collection of `draw_walls` does produce exactly one
entry per establishment identity, anchored at the minimum-depth ray — but
because the label-drawing loop (Step 3) is nested inside the per-ray wall
loop (Step 2), the name label (and its shadow) of each identity is blitted
once per ray, `rays.length` times per frame, not exactly once. -/
theorem C2_label_blitted_once_per_ray :
    nearest_hits estsW1 raysW = [('t', 0, 2)]
    ∧ countLabelBlits (draw_walls_blits estsW1 raysW) 't' = raysW.length
    ∧ raysW.length = 2 := by
  refine ⟨?_, ?_, rfl⟩ <;> with_unfolding_all decide

/-- C7 counterexample: pixel `(0, 300)` lies in the bottom two-thirds of the
frame (`300 ≥ RES_Y / 3 = 240`) but no floor blit covers it (the floor
tiling starts at `RES_Y // 2 = 360`, not at `RES_Y / 3`); and pixel
`(0, 100)` lies in the top third (`100 < 240`) but no sky blit covers it
(the 64-row sky texture clips the 240-row blit area). -/
theorem C7_counterexample :
    (RES_Y / 3 ≤ 300 ∧ 300 < RES_Y ∧ floorCovered 0 300 = false)
    ∧ (100 < RES_Y / 3 ∧ skyCovered true 0 100 = false) := by decide

/-- C7 (amended): in every composited exploring-mode frame the sky texture —
day or night, selected by the boolean flag — covers exactly the top
`min (RES_Y / 3) TILE = 64` rows (the 64x64 sky texture clips the requested
240-row area, so the sky does not reach a third of the way down), while the
floor texture is tiled over exactly the bottom half (`y ≥ RES_Y // 2`); the
band in between keeps the black background fill. -/
theorem C7_sky_clipped_floor_bottom_half (day_mode : Bool) (x y : ℕ)
    (hx : x < RES_X) (hy : y < RES_Y) :
    (skyCovered day_mode x y = true ↔ y < min (RES_Y / 3) TILE)
    ∧ (floorCovered x y = true ↔ RES_Y / 2 ≤ y)
    ∧ (∀ b ∈ skyBlits day_mode,
        b.tex = if day_mode then SFTex.skyDay else SFTex.skyNight) := by
  simp only [RES_X] at hx
  simp only [RES_Y] at hy
  refine ⟨?_, ?_, ?_⟩
  · unfold skyCovered skyBlits coversPt
    simp only [RES_X, RES_Y, TILE, List.any_eq_true, List.mem_map, List.mem_range,
      Bool.and_eq_true, decide_eq_true_eq]
    constructor
    · rintro ⟨b, ⟨i, hi, rfl⟩, hc⟩
      dsimp only at hc
      omega
    · intro hlt
      refine ⟨_, ⟨x / 64, by omega, rfl⟩, ?_⟩
      dsimp only
      omega
  · unfold floorCovered floorBlits coversPt
    simp only [RES_X, RES_Y, TILE, List.any_eq_true, List.mem_flatMap, List.mem_map,
      List.mem_range, Bool.and_eq_true, decide_eq_true_eq]
    constructor
    · rintro ⟨b, ⟨j, hj, ⟨i, hi, rfl⟩⟩, hc⟩
      dsimp only at hc
      omega
    · intro hge
      refine ⟨_, ⟨(y - 360) / 64, by omega, ⟨x / 64, by omega, rfl⟩⟩, ?_⟩
      dsimp only
      omega
  · unfold skyBlits
    intro b hb
    obtain ⟨i, hi, rfl⟩ := List.mem_map.mp hb
    rfl

/-- Witness for the amended C7 at the frame pixel `(0, 0)`. -/
theorem C7_witness :
    (skyCovered true 0 0 = true ↔ 0 < min (RES_Y / 3) TILE)
    ∧ (floorCovered 0 0 = true ↔ RES_Y / 2 ≤ 0)
    ∧ (∀ b ∈ skyBlits true, b.tex = if true then SFTex.skyDay else SFTex.skyNight) :=
  C7_sky_clipped_floor_bottom_half true 0 0 (by decide) (by decide)

end ARRemake
